import Mathlib

/-! gormetrics: registry cache, callback handler and connection sampler.

A shallow embedding of `collectors.go`, `callback.go`, `database.go` and
`metrics.go`.  Go maps are association lists whose list order stands for the
(unspecified) iteration order of `range`; every statement below is quantified
over all lists, hence over all iteration orders.  Mutable objects reached
through pointers are passed explicitly as state.
-/

set_option autoImplicit false

namespace Gormetrics

/-! ## Go maps with string keys -/

/-- A Go `map[string]β`: the entries in the order in which `range` visits them. -/
abbrev GoMap (β : Type) := List (String × β)

namespace GoMap

variable {β : Type}

/-- The read `v, exists := m[k]`. -/
def get? : GoMap β → String → Option β
  | [], _ => none
  | (k', v) :: t, k => if k' = k then some v else get? t k

/-- The assignment `m[k] = v`: overwrite the entry of `k`, or add one. -/
def set : GoMap β → String → β → GoMap β
  | [], k, v => [(k, v)]
  | (k', v') :: t, k, v => if k' = k then (k, v) :: t else (k', v') :: set t k v

/-- The keys present in the map. -/
def keys (m : GoMap β) : List String := m.map Prod.fst

end GoMap

/-! ## metrics.go -/

def labelStatus : String := "status"
def labelDatabase : String := "database"
def labelDriver : String := "driver"

def metricStatusFail : String := "fail"
def metricStatusSuccess : String := "success"

def metricOpenConnections : String := "connections_open"
def metricIdleConnections : String := "connections_idle"
def metricInUseConnections : String := "connections_in_use"
def metricMaxOpenConnections : String := "connections_max_open"
def metricWaitedForConnections : String := "connections_wait_for"
def metricBlockedSecondsConnections : String := "connections_blocked_seconds"
def metricClosedMaxLifetimeConnections : String := "connections_closed_max_lifetime"

/-- Modelled from the spec: the constant `metricClosedMaxIdleConnections` is used by
`newDatabaseGauges` but declared outside the four source files; section 6 of the
specification lists the metric name `connections_closed_max_idle`. -/
def metricClosedMaxIdleConnections : String := "connections_closed_max_idle"

def helpOpenConnections : String := "Currently open connections to the database"
def helpIdleConnections : String := "Currently idle connections to the database"
def helpInUseConnections : String := "Currently in use connections"
def helpMaxOpenConnections : String :=
  "Currently Maximum number of open connections to the database"
def helpWaitedForConnections : String := "Currently waited for connections to the database"
def helpBlockedSecondsConnections : String :=
  "The total time blocked waiting for a new connection"
def helpClosedMaxLifetimeConnections : String :=
  "The total number of connections closed due to SetConnMaxLifetime"

/-- Modelled from the spec: the constant `helpClosedMaxIdleConnections` is declared
outside the four source files; the text follows section 4.3 of the specification
(connections closed due to idle-timeout).  No statement depends on its value. -/
def helpClosedMaxIdleConnections : String :=
  "The total number of connections closed due to idle timeout"

def metricAllTotal : String := "all_total"
def metricCreatesTotal : String := "creates_total"
def metricDeletesTotal : String := "deletes_total"
def metricQueriesTotal : String := "queries_total"
def metricUpdatesTotal : String := "updates_total"

def helpAllTotal : String := "All queries requested"
def helpCreatesTotal : String := "All create queries requested"
def helpDeletesTotal : String := "All delete queries requested"
def helpQueriesTotal : String := "All select queries requested"
def helpUpdatesTotal : String := "All update queries requested"

/-! ## Label maps and `mergeLabels` (callback.go) -/

/-- The type `prometheus.Labels`, a `map[string]string`. -/
abbrev Labels := GoMap String

/-- Two label maps denote the same mapping (they may list it in different orders). -/
def Labels.sameMap (l₁ l₂ : Labels) : Bool :=
  (GoMap.keys l₁ ++ GoMap.keys l₂).all (fun k => GoMap.get? l₁ k == GoMap.get? l₂ k)

/-- The maps allocated on the Go heap, by address.  A `prometheus.Labels` value is a
reference into this store; every reference addresses an allocated map, and two
references may address the same map. -/
abbrev MapStore := Nat → Labels

/-- The store after the map at address `r` has become `m`. -/
def MapStore.write (st : MapStore) (r : Nat) (m : Labels) : MapStore :=
  fun r' => if r' = r then m else st r'

/-- One round of the loop of `mergeLabels`:
`if _, exists := a[k]; !exists { a[k] = v }`. -/
def mergeLabels.step (a : Nat) (st : MapStore) (kv : String × String) : MapStore :=
  if (GoMap.get? (st a) kv.1).isSome then st
  else st.write a (GoMap.set (st a) kv.1 kv.2)

/-- The function `mergeLabels(a, b)`: it ranges over the entries of the map referenced
by `b`, writes the missing ones into the map referenced by `a`, and returns the
reference `a`. -/
def mergeLabels (st : MapStore) (a b : Nat) : MapStore × Nat :=
  ((st b).foldl (mergeLabels.step a) st, a)

/-! ## Metric vectors and the metrics backend (external collaborators) -/

/-- What a metric vector announces to the backend when it is registered: the
namespace, name and help text of its options and its label names. -/
structure Collector where
  Namespace : String
  Name : String
  Help : String
  variableLabels : List String
  deriving DecidableEq, Repr

/-- A `*prometheus.CounterVec`: its description and the label sets of the calls
`With(labels).Inc()` made on it so far, oldest first. -/
structure CounterVec where
  desc : Collector
  incs : List Labels
  deriving DecidableEq, Repr

/-- The call `counter.With(labels).Inc()`, for a label set that fits the label names of
the vector (the client library panics on any other). -/
def CounterVec.WithInc (c : CounterVec) (labels : Labels) : CounterVec :=
  { c with incs := c.incs ++ [labels] }

/-- The value of the counter series of the label set `l`: the number of increments
made under that label set. -/
def CounterVec.value (c : CounterVec) (l : Labels) : Nat :=
  (c.incs.filter (fun l' => Labels.sameMap l' l)).length

/-- A finite `float64` value, by the rational number it is. -/
abbrev Float64 : Type := ℚ

/-- Rounding of a real number to the nearest `float64`, ties to the even mantissa (the
rounding of IEEE 754 binary64, which Go uses for conversions and arithmetic): the
exponent `e` of `x` (at least `-1022`, below which the numbers are subnormal), the unit
in the last place `2 ^ (e - 52)`, and the mantissa rounded to an integer.  Overflow to
an infinity needs a magnitude of `2 ^ 1024` and is not reached from 64-bit integers. -/
def roundNearestEven (x : ℚ) : Float64 :=
  if x = 0 then 0
  else
    let e : Int := max (Int.log 2 |x|) (-1022)
    let ulp : ℚ := 2 ^ (e - 52)
    let q : ℚ := |x| / ulp
    let m : Int := ⌊q⌋
    let r : ℚ := q - m
    let m' : Int :=
      if r < 1 / 2 then m else if 1 / 2 < r then m + 1 else if m % 2 = 0 then m else m + 1
    (if x < 0 then -1 else 1) * (m' : ℚ) * ulp

/-- The conversion `float64(n)` of an integer. -/
def float64 (n : Int) : Float64 := roundNearestEven n

/-- The method `time.Duration.Seconds` on a duration of `d` nanoseconds:
`sec := d / Second; nsec := d % Second; return float64(sec) + float64(nsec)/1e9`, the
integer division truncating and the two floating-point operations rounding. -/
def Duration.Seconds (d : Int) : Float64 :=
  let sec := d.tdiv 1000000000
  let nsec := d.tmod 1000000000
  roundNearestEven (float64 sec + roundNearestEven (float64 nsec / 1000000000))

/-- A `*prometheus.GaugeVec`: its description and the calls `With(labels).Set(v)`
made on it so far, oldest first. -/
structure GaugeVec where
  desc : Collector
  sets : List (Labels × Float64)
  deriving DecidableEq, Repr

/-- The call `gauge.With(labels).Set(v)`, for a label set that fits the label names of
the vector (the client library panics on any other). -/
def GaugeVec.WithSet (g : GaugeVec) (labels : Labels) (v : Float64) : GaugeVec :=
  { g with sets := g.sets ++ [(labels, v)] }

/-- The value held by the gauge series of the label set `l`: the value of the latest
`Set` under that label set, if there was one. -/
def GaugeVec.value (g : GaugeVec) (l : Labels) : Option Float64 :=
  (g.sets.reverse.find? (fun e => Labels.sameMap e.1 l)).map Prod.snd

/-- The metrics backend as the registry sees it: `Register` takes the backend state
and a collector and returns the error (or nil) and the next backend state.  The
registry statements hold for every such backend. -/
structure Registerer (σ : Type) where
  Register : σ → Collector → Option String × σ

/-- The fully qualified metric name the Prometheus client builds from a namespace and
a name (`BuildFQName` with an empty subsystem). -/
def Collector.fqName (c : Collector) : String :=
  if c.Name = "" then "" else if c.Namespace = "" then c.Name else c.Namespace ++ "_" ++ c.Name

/-- A concrete backend, after the default Prometheus registry: the state is the list of
registered collectors, and a collector whose fully qualified name is already
registered is rejected. -/
def prometheus : Registerer (List Collector) where
  Register reg c :=
    if reg.any (fun e => e.fqName == c.fqName) then
      (some "duplicate metrics collector registration attempted", reg)
    else (none, reg ++ [c])

/-- Modelled from the spec: `counterVecCreator` is declared outside the four source
files; per section 4.2 it holds the namespace and the label keys shared by the
metrics of a bundle. -/
structure counterVecCreator where
  Namespace : String
  labels : List String

/-- Modelled from the spec: `counterVecCreator.new(name, help)` produces one fresh
counter vector for the tuple (metric name, help text, label keys) in the namespace
(section 4.2). -/
def counterVecCreator.new (cc : counterVecCreator) (name help : String) : CounterVec :=
  { desc := ⟨cc.Namespace, name, help, cc.labels⟩, incs := [] }

/-- Modelled from the spec: `gaugeVecCreator`, the gauge counterpart of
`counterVecCreator` (section 4.2), declared outside the four source files. -/
structure gaugeVecCreator where
  Namespace : String
  labels : List String

/-- Modelled from the spec: `gaugeVecCreator.new(name, help)` produces one fresh gauge
vector for the tuple (metric name, help text, label keys) in the namespace
(section 4.2). -/
def gaugeVecCreator.new (vc : gaugeVecCreator) (name help : String) : GaugeVec :=
  { desc := ⟨vc.Namespace, name, help, vc.labels⟩, sets := [] }

/-! ## collectors.go -/

/-- The struct `queryCounters`, by the state of the vector each field points to; a field
is `none` when the pointer is nil.  The five fields point to five different vectors, as
in every bundle `newQueryCounters` builds. -/
structure queryCounters where
  all : Option CounterVec
  creates : Option CounterVec
  deletes : Option CounterVec
  queries : Option CounterVec
  updates : Option CounterVec
  deriving DecidableEq, Repr

/-- The struct `databaseGauges`, by the state of the vector each field points to (the
field `open` of the source is `open_` here, `open` being reserved).  The eight fields
point to eight different vectors, none nil, as in every bundle `newDatabaseGauges`
builds. -/
structure databaseGauges where
  idle : GaugeVec
  inUse : GaugeVec
  open_ : GaugeVec
  maxOpen : GaugeVec
  waitedFor : GaugeVec
  blockedSeconds : GaugeVec
  closedMaxIdle : GaugeVec
  closedMaxLifetime : GaugeVec
  deriving DecidableEq, Repr

/-- The struct `globalCollectors`: the two caches, from namespace to the address of
the cached bundle.  (The embedded mutex has no sequential content.) -/
structure globalCollectors where
  query : GoMap Nat
  database : GoMap Nat
  deriving DecidableEq, Repr

/-- The state the registry functions act on: the package variable `collectors`, the
bundles allocated so far (a bundle's address is its index), the state of the metrics
backend, and the log of the calls to `prometheus.Register`, oldest first. -/
structure World (σ : Type) where
  collectors : globalCollectors
  qheap : List queryCounters
  dheap : List databaseGauges
  backend : σ
  calls : List Collector

/-- The initial value of the package variable `collectors` (two empty maps), over a
backend state. -/
def World.init {σ : Type} (b : σ) : World σ :=
  { collectors := { query := [], database := [] }, qheap := [], dheap := [],
    backend := b, calls := [] }

/-- The invariant of the registry: every cached address is the address of an allocated
bundle, and no address is cached twice. -/
def World.WF {σ : Type} (w : World σ) : Prop :=
  (∀ e ∈ w.collectors.query, e.2 < w.qheap.length) ∧
  (w.collectors.query.map Prod.snd).Nodup ∧
  (∀ e ∈ w.collectors.database, e.2 < w.dheap.length) ∧
  (w.collectors.database.map Prod.snd).Nodup

instance World.decidableWF {σ : Type} (w : World σ) : Decidable w.WF := by
  unfold World.WF
  exact inferInstance

/-- The function `errors.Wrap(err, message)` of `github.com/pkg/errors`. -/
def errors.Wrap (err message : String) : String := message ++ ": " ++ err

/-- The function `registerCollectors`: registers the collectors in order and returns
the first error. -/
def registerCollectors {σ : Type} (R : Registerer σ) :
    List Collector → World σ → Option String × World σ
  | [], w => (none, w)
  | c :: rest, w =>
    match R.Register w.backend c with
    | (some err, b) => (some err, { w with backend := b, calls := w.calls ++ [c] })
    | (none, b) => registerCollectors R rest { w with backend := b, calls := w.calls ++ [c] }

/-- The five counter vectors `newQueryCounters` creates for a namespace. -/
def queryCounters.create (ns : String) : queryCounters :=
  let cc : counterVecCreator :=
    { Namespace := ns, labels := [labelDatabase, labelDriver, labelStatus] }
  { all := some (cc.new metricAllTotal helpAllTotal)
    creates := some (cc.new metricCreatesTotal helpCreatesTotal)
    deletes := some (cc.new metricDeletesTotal helpDeletesTotal)
    queries := some (cc.new metricQueriesTotal helpQueriesTotal)
    updates := some (cc.new metricUpdatesTotal helpUpdatesTotal) }

/-- The collectors `newQueryCounters` passes to `registerCollectors`, in order:
`qc.all, qc.creates, qc.deletes, qc.queries, qc.updates`. -/
def queryCounters.collectors (ns : String) : List Collector :=
  let qc := queryCounters.create ns
  [qc.all, qc.creates, qc.deletes, qc.queries, qc.updates].filterMap
    (Option.map CounterVec.desc)

/-- The function `newQueryCounters`: the cached bundle of the namespace, or a new
bundle that is registered and then cached.  The result is the address of the bundle
or the error. -/
def newQueryCounters {σ : Type} (R : Registerer σ) (ns : String) (w : World σ) :
    Except String Nat × World σ :=
  match GoMap.get? w.collectors.query ns with
  | some gc => (.ok gc, w)
  | none =>
    let qc := queryCounters.create ns
    match registerCollectors R (queryCounters.collectors ns) w with
    | (some err, w') => (.error (errors.Wrap err "could not register collectors"), w')
    | (none, w') =>
      let addr := w'.qheap.length
      (.ok addr,
        { w' with
          qheap := w'.qheap ++ [qc]
          collectors :=
            { w'.collectors with query := GoMap.set w'.collectors.query ns addr } })

/-- The eight gauge vectors `newDatabaseGauges` creates for a namespace. -/
def databaseGauges.create (ns : String) : databaseGauges :=
  let vecCreator : gaugeVecCreator :=
    { Namespace := ns, labels := [labelDatabase, labelDriver] }
  { idle := vecCreator.new metricIdleConnections helpIdleConnections
    inUse := vecCreator.new metricInUseConnections helpInUseConnections
    open_ := vecCreator.new metricOpenConnections helpOpenConnections
    maxOpen := vecCreator.new metricMaxOpenConnections helpMaxOpenConnections
    waitedFor := vecCreator.new metricWaitedForConnections helpWaitedForConnections
    blockedSeconds :=
      vecCreator.new metricBlockedSecondsConnections helpBlockedSecondsConnections
    closedMaxIdle :=
      vecCreator.new metricClosedMaxIdleConnections helpClosedMaxIdleConnections
    closedMaxLifetime :=
      vecCreator.new metricClosedMaxLifetimeConnections helpClosedMaxLifetimeConnections }

/-- The collectors `newDatabaseGauges` passes to `registerCollectors`, in order. -/
def databaseGauges.collectors (ns : String) : List Collector :=
  let dg := databaseGauges.create ns
  [dg.idle.desc, dg.inUse.desc, dg.open_.desc, dg.maxOpen.desc, dg.waitedFor.desc,
   dg.blockedSeconds.desc, dg.closedMaxIdle.desc, dg.closedMaxLifetime.desc]

/-- The function `newDatabaseGauges`: the cached bundle of the namespace, or a new
bundle that is registered and then cached.  The error is returned unwrapped. -/
def newDatabaseGauges {σ : Type} (R : Registerer σ) (ns : String) (w : World σ) :
    Except String Nat × World σ :=
  match GoMap.get? w.collectors.database ns with
  | some gc => (.ok gc, w)
  | none =>
    let dg := databaseGauges.create ns
    match registerCollectors R (databaseGauges.collectors ns) w with
    | (some err, w') => (.error err, w')
    | (none, w') =>
      let addr := w'.dheap.length
      (.ok addr,
        { w' with
          dheap := w'.dheap ++ [dg]
          collectors :=
            { w'.collectors with database := GoMap.set w'.collectors.database ns addr } })

/-! ## callback.go -/

/-- Modelled from the spec: `pluginOpts` is declared outside the four source files; it
is the configuration of section 6, of which the sources read the namespace and the
scope string. -/
structure pluginOpts where
  prometheusNamespace : String
  gormPluginScope : String
  deriving DecidableEq, Repr

/-- The struct `extraInfo`. -/
structure extraInfo where
  dbName : String
  driverName : String
  deriving DecidableEq, Repr

/-- Modelled from the spec: the result of `scope.DB()` of the interface `gormi.Scope`,
declared outside the four source files; per section 6 the operation context exposes
an error value, nil or non-nil. -/
structure DB where
  Error : Option String
  deriving DecidableEq, Repr

/-- Modelled from the spec: the interface `gormi.Scope`, the completed-operation
context handed to a hook (section 6). -/
structure Scope where
  DB : DB
  deriving DecidableEq, Repr

/-- The struct `callbackHandler`; `counters` is the address of the bundle. -/
structure callbackHandler where
  opts : pluginOpts
  counters : Nat
  defaultLabels : Labels
  deriving DecidableEq, Repr

/-- A pointer to one of the counter vectors of the bundle `h.counters`, by the field
it is read from. -/
inductive CounterField
  | all | creates | deletes | queries | updates
  deriving DecidableEq, Repr

/-- The pointer stored in a field of the bundle. -/
def queryCounters.get (qc : queryCounters) : CounterField → Option CounterVec
  | .all => qc.all
  | .creates => qc.creates
  | .deletes => qc.deletes
  | .queries => qc.queries
  | .updates => qc.updates

/-- The bundle after the vector of one field has changed. -/
def queryCounters.put (qc : queryCounters) (f : CounterField) (c : Option CounterVec) :
    queryCounters :=
  match f with
  | .all => { qc with all := c }
  | .creates => { qc with creates := c }
  | .deletes => { qc with deletes := c }
  | .queries => { qc with queries := c }
  | .updates => { qc with updates := c }

/-- One round of the loop of `updateVectors`:
`if counter == nil { continue }; counter.With(labels).Inc()`. -/
def updateVectors.step (labels : Labels) (qc : queryCounters) (counter : CounterField) :
    queryCounters :=
  match qc.get counter with
  | none => qc
  | some c => qc.put counter (some (c.WithInc labels))

/-- The status `updateVectors` computes from the context:
`status := metricStatusFail; if !hasError { status = metricStatusSuccess }`. -/
def updateVectors.status (scope : Scope) : String :=
  let hasError := scope.DB.Error.isSome
  if !hasError then metricStatusSuccess else metricStatusFail

/-- The label set `updateVectors` builds: a fresh map `{labelStatus: status}` (at
address 0 of a local store, the handler's default labels being at address 1) merged
with `h.defaultLabels` by `mergeLabels`. -/
def updateVectors.labels (h : callbackHandler) (scope : Scope) : Labels :=
  let st : MapStore :=
    fun r => if r = 0 then [(labelStatus, updateVectors.status scope)] else h.defaultLabels
  let r := mergeLabels st 0 1
  r.1 r.2

/-- The method `callbackHandler.updateVectors`, on the state `qc` of the bundle
`h.counters`: appends `h.counters.all` to the vectors and increments every non-nil
one under the label set. -/
def callbackHandler.updateVectors (h : callbackHandler) (scope : Scope)
    (vectors : List CounterField) (qc : queryCounters) : queryCounters :=
  let vectors := vectors ++ [CounterField.all]
  let labels := updateVectors.labels h scope
  vectors.foldl (updateVectors.step labels) qc

/-- The method `callbackHandler.afterCreate`. -/
def callbackHandler.afterCreate (h : callbackHandler) (scope : Scope)
    (qc : queryCounters) : queryCounters :=
  h.updateVectors scope [CounterField.creates] qc

/-- The method `callbackHandler.afterDelete`. -/
def callbackHandler.afterDelete (h : callbackHandler) (scope : Scope)
    (qc : queryCounters) : queryCounters :=
  h.updateVectors scope [CounterField.deletes] qc

/-- The method `callbackHandler.afterQuery`. -/
def callbackHandler.afterQuery (h : callbackHandler) (scope : Scope)
    (qc : queryCounters) : queryCounters :=
  h.updateVectors scope [CounterField.queries] qc

/-- The method `callbackHandler.afterUpdate`. -/
def callbackHandler.afterUpdate (h : callbackHandler) (scope : Scope)
    (qc : queryCounters) : queryCounters :=
  h.updateVectors scope [CounterField.updates] qc

/-- The function `newCallbackHandler`. -/
def newCallbackHandler {σ : Type} (R : Registerer σ) (info : extraInfo) (opts : pluginOpts)
    (w : World σ) : Except String callbackHandler × World σ :=
  match newQueryCounters R opts.prometheusNamespace w with
  | (.error err, w') => (.error (errors.Wrap err "could not create query gauges"), w')
  | (.ok counters, w') =>
    (.ok
      { opts := opts
        counters := counters
        defaultLabels := [(labelDriver, info.driverName), (labelDatabase, info.dbName)] },
      w')

/-- The method `pluginOpts.callbackName`: `fmt.Sprintf("%v:%v", scope, callback)`. -/
def pluginOpts.callbackName (c : pluginOpts) (callback : String) : String :=
  c.gormPluginScope ++ ":" ++ callback

/-- The four hook points of the ORM a handler can be attached to. -/
inductive Processor
  | Create | Delete | Query | Update
  deriving DecidableEq, Repr

/-- One call `cb.P().After(after).Register(name, handler)`. -/
structure Registration where
  processor : Processor
  after : String
  name : String
  handler : Scope → queryCounters → queryCounters

/-- Modelled from the spec: the interface `gormi.Callback`, declared outside the four
source files: the hook registrar of section 6, here the list of the registrations made
on it, oldest first. -/
abbrev Callback := List Registration

/-- The method `callbackHandler.registerCallback`. -/
def callbackHandler.registerCallback (h : callbackHandler) (cb : Callback) : Callback :=
  let cb := cb ++ [⟨Processor.Create, "gorm:after_create",
    h.opts.callbackName "after_create", h.afterCreate⟩]
  let cb := cb ++ [⟨Processor.Delete, "gorm:after_delete",
    h.opts.callbackName "after_delete", h.afterDelete⟩]
  let cb := cb ++ [⟨Processor.Query, "gorm:after_query",
    h.opts.callbackName "after_query", h.afterQuery⟩]
  cb ++ [⟨Processor.Update, "gorm:after_update",
    h.opts.callbackName "after_update", h.afterUpdate⟩]

/-! ## database.go -/

/-- The struct `sql.DBStats` of `database/sql`. -/
structure DBStats where
  MaxOpenConnections : Int
  OpenConnections : Int
  InUse : Int
  Idle : Int
  WaitCount : Int
  WaitDuration : Int
  MaxIdleClosed : Int
  MaxIdleTimeClosed : Int
  MaxLifetimeClosed : Int
  deriving DecidableEq, Repr

/-- The pool handle `*sql.DB`, by the statistics `Stats()` reports when it is read. -/
structure SqlDB where
  Stats : DBStats
  deriving DecidableEq, Repr

/-- The struct `database`.  (The embedded mutex has no sequential content.) -/
structure database where
  name : String
  driverName : String
  db : SqlDB
  deriving DecidableEq, Repr

/-- The function `newDatabase`. -/
def newDatabase (info : extraInfo) (db : SqlDB) : database :=
  { name := info.dbName, driverName := info.driverName, db := db }

/-- The method `database.collectConnectionStats`, on the state `counters` of the gauge
bundle. -/
def database.collectConnectionStats (d : database) (counters : databaseGauges) :
    databaseGauges :=
  let defaultLabels : Labels := [(labelDatabase, d.name), (labelDriver, d.driverName)]
  let stats := d.db.Stats
  let counters :=
    { counters with idle := counters.idle.WithSet defaultLabels (float64 stats.Idle) }
  let counters :=
    { counters with inUse := counters.inUse.WithSet defaultLabels (float64 stats.InUse) }
  let counters :=
    { counters with
      open_ := counters.open_.WithSet defaultLabels (float64 stats.OpenConnections) }
  let counters :=
    { counters with
      maxOpen := counters.maxOpen.WithSet defaultLabels (float64 stats.MaxOpenConnections) }
  let counters :=
    { counters with
      waitedFor := counters.waitedFor.WithSet defaultLabels (float64 stats.WaitCount) }
  let counters :=
    { counters with
      blockedSeconds :=
        counters.blockedSeconds.WithSet defaultLabels (Duration.Seconds stats.WaitDuration) }
  let counters :=
    { counters with
      closedMaxIdle :=
        counters.closedMaxIdle.WithSet defaultLabels (float64 stats.MaxIdleClosed) }
  { counters with
    closedMaxLifetime :=
      counters.closedMaxLifetime.WithSet defaultLabels (float64 stats.MaxLifetimeClosed) }

/-! ## A failed creation followed by a retry -/

/-- A metric registered with the backend from outside this package, under the name
`app_deletes_total`. -/
def retryScenario.outside : Collector :=
  ⟨"app", "deletes_total", "registered elsewhere", []⟩

/-- The first call `newQueryCounters("app")`, on an empty cache, over the Prometheus
backend that holds the outside metric. -/
def retryScenario.first : Except String Nat × World (List Collector) :=
  newQueryCounters prometheus "app" (World.init [retryScenario.outside])

/-- The state after the first call, once the outside metric has been unregistered. -/
def retryScenario.cleaned : World (List Collector) :=
  { retryScenario.first.2 with
    backend :=
      retryScenario.first.2.backend.filter (fun c => decide (c ≠ retryScenario.outside)) }

/-- The second call `newQueryCounters("app")`, made after the outside metric is gone. -/
def retryScenario.second : Except String Nat × World (List Collector) :=
  newQueryCounters prometheus "app" retryScenario.cleaned

/-! ## A namespace requested again after another one -/

/-- The registry over an empty Prometheus backend after `newQueryCounters("billing")`. -/
def cachedScenario.start : World (List Collector) :=
  (newQueryCounters prometheus "billing" (World.init [])).2

/-- The call `newQueryCounters("orders")` that follows. -/
def cachedScenario.first : Except String Nat × World (List Collector) :=
  newQueryCounters prometheus "orders" cachedScenario.start

/-- The call `newQueryCounters("billing")` made after it. -/
def cachedScenario.second : Except String Nat × World (List Collector) :=
  newQueryCounters prometheus "billing" cachedScenario.first.2

/-! ## A sample of large statistics -/

/-- A binding whose pool reports a wait count of `2 ^ 53 + 1` and a wait duration of
100 milliseconds. -/
def largeSample.binding : database :=
  newDatabase ⟨"orders", "postgres"⟩
    ⟨{ MaxOpenConnections := 10, OpenConnections := 5, InUse := 3, Idle := 2,
       WaitCount := 9007199254740993, WaitDuration := 100000000, MaxIdleClosed := 1,
       MaxIdleTimeClosed := 0, MaxLifetimeClosed := 0 }⟩

/-- The gauges of the namespace `app` after one sample of that binding. -/
def largeSample.gauges : databaseGauges :=
  largeSample.binding.collectConnectionStats (databaseGauges.create "app")

/-! ## Lemmas on Go maps -/

namespace GoMap

variable {β : Type}

theorem get?_set_self (m : GoMap β) (k : String) (v : β) : get? (set m k v) k = some v := by
  induction m with
  | nil => simp [set, get?]
  | cons e t ih =>
    obtain ⟨k', v'⟩ := e
    by_cases h : k' = k
    · simp [set, get?, h]
    · simp [set, get?, h, ih]

theorem get?_set_ne (m : GoMap β) (k k₀ : String) (v : β) (hne : k ≠ k₀) :
    get? (set m k v) k₀ = get? m k₀ := by
  induction m with
  | nil => simp [set, get?, hne]
  | cons e t ih =>
    obtain ⟨k', v'⟩ := e
    by_cases h : k' = k
    · subst h
      simp [set, get?, hne]
    · by_cases h₀ : k' = k₀
      · subst h₀
        simp [set, get?, h]
      · simp [set, get?, h, h₀, ih]

theorem get?_isSome_iff_mem_keys (m : GoMap β) (k : String) :
    (get? m k).isSome = true ↔ k ∈ keys m := by
  induction m with
  | nil => simp [get?, keys]
  | cons e t ih =>
    obtain ⟨k', v'⟩ := e
    by_cases h : k' = k
    · simp [get?, keys, h]
    · have h' : ¬ k = k' := fun e => h e.symm
      simp only [keys] at ih
      simp [get?, keys, h, h', ih]

theorem get?_eq_none_iff (m : GoMap β) (k : String) : get? m k = none ↔ k ∉ keys m := by
  rw [← get?_isSome_iff_mem_keys]
  cases get? m k <;> simp

end GoMap

/-! ## Lemmas on `mergeLabels` -/

theorem mergeLabels.foldl_frame (a : Nat) (l : List (String × String)) (st : MapStore)
    (r : Nat) (hr : r ≠ a) : (l.foldl (mergeLabels.step a) st) r = st r := by
  induction l generalizing st with
  | nil => rfl
  | cons kv t ih =>
    rw [List.foldl_cons, ih]
    unfold mergeLabels.step
    split
    · rfl
    · simp [MapStore.write, hr]

theorem mergeLabels.foldl_get? (a : Nat) (l : List (String × String)) (st : MapStore)
    (k : String) :
    GoMap.get? ((l.foldl (mergeLabels.step a) st) a) k =
      match GoMap.get? (st a) k with
      | some v => some v
      | none => GoMap.get? l k := by
  induction l generalizing st with
  | nil => cases h : GoMap.get? (st a) k <;> simp [GoMap.get?, h]
  | cons kv t ih =>
    obtain ⟨k', v'⟩ := kv
    rw [List.foldl_cons, ih]
    unfold mergeLabels.step
    by_cases hex : (GoMap.get? (st a) k').isSome = true
    · simp only [hex, if_true]
      cases h : GoMap.get? (st a) k with
      | some v => rfl
      | none =>
        have hne : k' ≠ k := by
          intro e
          rw [e, h] at hex
          simp at hex
        simp [GoMap.get?, hne]
    · simp only [hex, if_false]
      by_cases hk : k' = k
      · subst hk
        have hnone : GoMap.get? (st a) k' = none := by
          cases h : GoMap.get? (st a) k' with
          | none => rfl
          | some v => simp [h] at hex
        simp [MapStore.write, GoMap.get?_set_self, hnone, GoMap.get?]
      · simp [MapStore.write, GoMap.get?_set_ne _ _ _ _ hk, GoMap.get?, hk]

theorem mergeLabels.foldl_noop (a : Nat) (l : List (String × String)) (st : MapStore)
    (h : ∀ kv ∈ l, (GoMap.get? (st a) kv.1).isSome = true) :
    l.foldl (mergeLabels.step a) st = st := by
  induction l with
  | nil => rfl
  | cons kv t ih =>
    have h1 : mergeLabels.step a st kv = st := by
      unfold mergeLabels.step
      simp [h kv (List.mem_cons_self _ _)]
    rw [List.foldl_cons, h1]
    exact ih (fun kv' hm => h kv' (List.mem_cons_of_mem _ hm))

theorem mergeLabels.foldl_self (a : Nat) (st : MapStore) :
    (st a).foldl (mergeLabels.step a) st = st := by
  apply mergeLabels.foldl_noop
  intro kv hm
  rw [GoMap.get?_isSome_iff_mem_keys]
  exact List.mem_map_of_mem Prod.fst hm

/-- C5: for all label maps `a` and `b` (references into any store), `mergeLabels(a, b)`
returns the reference `a`; afterwards the key set of `a` is the union of the former
key sets of `a` and `b`, every former key of `a` keeps the value `a` had (whatever `b`
holds for it), every key that was only in `b` has the value of `b`; the map `b` and
every other map of the store are unchanged.  Merging `{status: success}` with
`{driver: postgres, database: orders}` gives the three entries, in both iteration
orders of the second map. -/
theorem mergeLabels_spec (st : MapStore) (a b : Nat) :
    (mergeLabels st a b).2 = a ∧
    (∀ k, k ∈ GoMap.keys ((mergeLabels st a b).1 a) ↔
      k ∈ GoMap.keys (st a) ∨ k ∈ GoMap.keys (st b)) ∧
    (∀ k v, GoMap.get? (st a) k = some v →
      GoMap.get? ((mergeLabels st a b).1 a) k = some v) ∧
    (∀ k, GoMap.get? (st a) k = none →
      GoMap.get? ((mergeLabels st a b).1 a) k = GoMap.get? (st b) k) ∧
    (mergeLabels st a b).1 b = st b ∧
    (∀ r, r ≠ a → (mergeLabels st a b).1 r = st r) ∧
    (mergeLabels (fun r => if r = 0 then [("status", "success")]
        else [("driver", "postgres"), ("database", "orders")]) 0 1).1 0 =
      [("status", "success"), ("driver", "postgres"), ("database", "orders")] ∧
    (mergeLabels (fun r => if r = 0 then [("status", "success")]
        else [("database", "orders"), ("driver", "postgres")]) 0 1).1 0 =
      [("status", "success"), ("database", "orders"), ("driver", "postgres")] := by
  have hget := mergeLabels.foldl_get? a (st b) st
  refine ⟨rfl, ?_, ?_, ?_, ?_, ?_, by decide, by decide⟩
  · intro k
    rw [← GoMap.get?_isSome_iff_mem_keys, ← GoMap.get?_isSome_iff_mem_keys,
      ← GoMap.get?_isSome_iff_mem_keys]
    show (GoMap.get? ((st b).foldl (mergeLabels.step a) st a) k).isSome = true ↔ _
    rw [hget k]
    cases h : GoMap.get? (st a) k <;> simp
  · intro k v h
    show GoMap.get? ((st b).foldl (mergeLabels.step a) st a) k = _
    rw [hget k, h]
  · intro k h
    show GoMap.get? ((st b).foldl (mergeLabels.step a) st a) k = _
    rw [hget k, h]
  · by_cases hab : b = a
    · subst hab
      show (st b).foldl (mergeLabels.step b) st b = st b
      rw [mergeLabels.foldl_self]
    · exact mergeLabels.foldl_frame a (st b) st b hab
  · intro r hr
    exact mergeLabels.foldl_frame a (st b) st r hr

/-! ## The callback handler -/

theorem Labels.sameMap_refl (l : Labels) : Labels.sameMap l l = true := by
  simp [Labels.sameMap]

theorem CounterVec.value_WithInc_same (c : CounterVec) (L : Labels) :
    (c.WithInc L).value L = c.value L + 1 := by
  simp [CounterVec.value, CounterVec.WithInc, List.filter_append, Labels.sameMap_refl]

theorem CounterVec.value_WithInc_other (c : CounterVec) (L l : Labels)
    (h : Labels.sameMap L l = false) : (c.WithInc L).value l = c.value l := by
  simp [CounterVec.value, CounterVec.WithInc, List.filter_append, h]

theorem updateVectors.status_eq (scope : Scope) :
    updateVectors.status scope =
      if scope.DB.Error = none then metricStatusSuccess else metricStatusFail := by
  unfold updateVectors.status
  cases scope.DB.Error <;> simp

theorem updateVectors.labels_status (h : callbackHandler) (scope : Scope) :
    GoMap.get? (updateVectors.labels h scope) labelStatus =
      some (updateVectors.status scope) := by
  unfold updateVectors.labels mergeLabels
  simp only []
  rw [mergeLabels.foldl_get?]
  simp [GoMap.get?]

theorem newCallbackHandler_defaultLabels {σ : Type} (R : Registerer σ) (info : extraInfo)
    (opts : pluginOpts) (w : World σ) (h : callbackHandler)
    (hnew : (newCallbackHandler R info opts w).1 = .ok h) :
    h.defaultLabels = [(labelDriver, info.driverName), (labelDatabase, info.dbName)] ∧
    h.opts = opts := by
  unfold newCallbackHandler at hnew
  split at hnew
  · simp at hnew
  · simp only [Except.ok.injEq] at hnew
    subst hnew
    exact ⟨rfl, rfl⟩

/-- C6: for every handler `h` built by `newCallbackHandler` from `(driverName, dbName)`
and every context, `updateVectors` makes all its increments under one label set, which
is exactly `{status: s, driver: driverName, database: dbName}` (in either iteration
order of the default labels), where `s` is `fail` if and only if the error of the
context is non-nil and `success` otherwise; and for every handler whatsoever, whatever
its default labels hold (a `status` key included), the status of the label set is the
computed outcome. -/
theorem updateVectors_labels {σ : Type} (R : Registerer σ) (info : extraInfo)
    (opts : pluginOpts) (w : World σ) (h : callbackHandler)
    (hnew : (newCallbackHandler R info opts w).1 = .ok h) (scope : Scope) :
    (∀ vectors qc, h.updateVectors scope vectors qc =
      (vectors ++ [CounterField.all]).foldl
        (updateVectors.step (updateVectors.labels h scope)) qc) ∧
    updateVectors.labels h scope =
      [(labelStatus, updateVectors.status scope), (labelDriver, info.driverName),
       (labelDatabase, info.dbName)] ∧
    updateVectors.labels { h with defaultLabels := h.defaultLabels.reverse } scope =
      [(labelStatus, updateVectors.status scope), (labelDatabase, info.dbName),
       (labelDriver, info.driverName)] ∧
    (updateVectors.status scope = metricStatusFail ↔ scope.DB.Error ≠ none) ∧
    (updateVectors.status scope = metricStatusSuccess ↔ scope.DB.Error = none) ∧
    (∀ h' : callbackHandler,
      GoMap.get? (updateVectors.labels h' scope) labelStatus =
        some (updateVectors.status scope)) := by
  obtain ⟨hdl, -⟩ := newCallbackHandler_defaultLabels R info opts w h hnew
  refine ⟨fun _ _ => rfl, ?_, ?_, ?_, ?_, fun h' => updateVectors.labels_status h' scope⟩
  · unfold updateVectors.labels mergeLabels
    simp [hdl, mergeLabels.step, GoMap.get?, GoMap.set, MapStore.write, labelStatus,
      labelDriver, labelDatabase]
  · unfold updateVectors.labels mergeLabels
    simp [hdl, mergeLabels.step, GoMap.get?, GoMap.set, MapStore.write, labelStatus,
      labelDriver, labelDatabase]
  · rw [updateVectors.status_eq]
    cases scope.DB.Error <;> simp [metricStatusSuccess, metricStatusFail]
  · rw [updateVectors.status_eq]
    cases scope.DB.Error <;> simp [metricStatusSuccess, metricStatusFail]

/-- Witness of C6: the handler built for driver `postgres` and database `orders` on an
empty registry, at a context without error. -/
theorem updateVectors_labels_witness :
    (newCallbackHandler prometheus ⟨"orders", "postgres"⟩ ⟨"app", "metrics"⟩
        (World.init [])).1 =
      .ok ⟨⟨"app", "metrics"⟩, 0, [("driver", "postgres"), ("database", "orders")]⟩ ∧
    updateVectors.labels ⟨⟨"app", "metrics"⟩, 0, [("driver", "postgres"), ("database", "orders")]⟩
        ⟨⟨none⟩⟩ =
      [("status", "success"), ("driver", "postgres"), ("database", "orders")] :=
  ⟨rfl, (updateVectors_labels prometheus ⟨"orders", "postgres"⟩ ⟨"app", "metrics"⟩
    (World.init []) _ rfl ⟨⟨none⟩⟩).2.1⟩

/-- C7: for each of the four handlers and every context, one invocation increments
once, under the one label set of `updateVectors`, the operation's own counter and the
aggregate counter `all` where they are non-nil, leaves a nil one of the two nil, and
leaves the other counters of the bundle as they were; an increment under a label set
raises the value of that series by exactly 1 and changes no other series. -/
theorem handlers_increment (h : callbackHandler) (scope : Scope) (qc : queryCounters) :
    h.afterCreate scope qc =
      { qc with
        creates := qc.creates.map (fun c => c.WithInc (updateVectors.labels h scope))
        all := qc.all.map (fun c => c.WithInc (updateVectors.labels h scope)) } ∧
    h.afterDelete scope qc =
      { qc with
        deletes := qc.deletes.map (fun c => c.WithInc (updateVectors.labels h scope))
        all := qc.all.map (fun c => c.WithInc (updateVectors.labels h scope)) } ∧
    h.afterQuery scope qc =
      { qc with
        queries := qc.queries.map (fun c => c.WithInc (updateVectors.labels h scope))
        all := qc.all.map (fun c => c.WithInc (updateVectors.labels h scope)) } ∧
    h.afterUpdate scope qc =
      { qc with
        updates := qc.updates.map (fun c => c.WithInc (updateVectors.labels h scope))
        all := qc.all.map (fun c => c.WithInc (updateVectors.labels h scope)) } ∧
    (∀ (c : CounterVec) (L : Labels),
      (c.WithInc L).value L = c.value L + 1 ∧
      (∀ l, Labels.sameMap L l = false → (c.WithInc L).value l = c.value l) ∧
      (c.WithInc L).incs = c.incs ++ [L] ∧ (c.WithInc L).desc = c.desc) := by
  obtain ⟨a, c, d, q, u⟩ := qc
  refine ⟨?_, ?_, ?_, ?_, fun c L =>
    ⟨CounterVec.value_WithInc_same c L, fun l hl => CounterVec.value_WithInc_other c L l hl,
      rfl, rfl⟩⟩
  · cases a <;> cases c <;> rfl
  · cases a <;> cases d <;> rfl
  · cases a <;> cases q <;> rfl
  · cases a <;> cases u <;> rfl

/-! ## The connection sampler -/

theorem GaugeVec.value_WithSet (g : GaugeVec) (L l : Labels) (v : Float64)
    (h : Labels.sameMap L l = true) : (g.WithSet L v).value l = some v := by
  simp [GaugeVec.value, GaugeVec.WithSet, List.find?_cons, h]

theorem sameMap_defaultLabels_swap (name driverName : String) :
    Labels.sameMap [(labelDatabase, name), (labelDriver, driverName)]
      [(labelDriver, driverName), (labelDatabase, name)] = true := by
  simp [Labels.sameMap, GoMap.keys, GoMap.get?, labelDatabase, labelDriver]

theorem log_two_eq (a : ℚ) (e : Int) (ha : 0 < a) (h1 : (2 : ℚ) ^ e ≤ a)
    (h2 : a < (2 : ℚ) ^ (e + 1)) : Int.log 2 a = e := by
  have hb : 1 < (2 : ℕ) := by norm_num
  have l1 : e ≤ Int.log 2 a := (Int.zpow_le_iff_le_log hb ha).1 (by exact_mod_cast h1)
  have l2 : Int.log 2 a < e + 1 := (Int.lt_zpow_iff_log_lt hb ha).1 (by exact_mod_cast h2)
  omega

theorem sign_mul_abs (x : ℚ) : (if x < 0 then -1 else 1) * |x| = x := by
  split
  · rename_i h
    rw [abs_of_neg h]
    ring
  · rename_i h
    rw [abs_of_nonneg (not_lt.1 h)]
    ring

/-- A number whose mantissa at its own exponent is an integer is a `float64`: rounding
leaves it as it is. -/
theorem roundNearestEven_of_mantissa (x : ℚ) (k : Int)
    (h : |x| = k * (2 : ℚ) ^ (max (Int.log 2 |x|) (-1022) - 52)) :
    roundNearestEven x = x := by
  unfold roundNearestEven
  by_cases hx : x = 0
  · simp [hx]
  · have hulp : (2 : ℚ) ^ (max (Int.log 2 |x|) (-1022) - 52) ≠ 0 :=
      zpow_ne_zero _ (by norm_num)
    have hq : |x| / (2 : ℚ) ^ (max (Int.log 2 |x|) (-1022) - 52) = (k : ℚ) := by
      rw [div_eq_iff hulp]
      exact h
    simp only [hx, if_false, hq, Int.floor_intCast, sub_self]
    have hlt : (0 : ℚ) < 1 / 2 := by norm_num
    simp only [hlt, if_true]
    rw [mul_assoc, ← h]
    exact sign_mul_abs x

theorem roundNearestEven_of_exponent (x : ℚ) (e k : Int) (hx : x ≠ 0)
    (h1 : (2 : ℚ) ^ e ≤ |x|) (h2 : |x| < (2 : ℚ) ^ (e + 1)) (he : -1022 ≤ e)
    (h : |x| = k * (2 : ℚ) ^ (e - 52)) : roundNearestEven x = x := by
  apply roundNearestEven_of_mantissa x k
  rw [log_two_eq |x| e (abs_pos.2 hx) h1 h2, max_eq_left he]
  exact h

theorem roundNearestEven_of_exponent_pos (x : ℚ) (e k : Int) (hx : 0 < x)
    (h1 : (2 : ℚ) ^ e ≤ x) (h2 : x < (2 : ℚ) ^ (e + 1)) (he : -1022 ≤ e)
    (h : x = k * (2 : ℚ) ^ (e - 52)) : roundNearestEven x = x := by
  apply roundNearestEven_of_exponent x e k hx.ne' _ _ he
  · rw [abs_of_pos hx]
    exact h
  · rw [abs_of_pos hx]
    exact h1
  · rw [abs_of_pos hx]
    exact h2

/-- The rounding of a positive number of exponent `e` whose mantissa lies between the
integers `m` and `m + 1`. -/
theorem roundNearestEven_pos_eval (x : ℚ) (e m : Int) (hx : 0 < x)
    (h1 : (2 : ℚ) ^ e ≤ x) (h2 : x < (2 : ℚ) ^ (e + 1)) (he : -1022 ≤ e)
    (hm : (m : ℚ) ≤ x / (2 : ℚ) ^ (e - 52)) (hm' : x / (2 : ℚ) ^ (e - 52) < m + 1) :
    roundNearestEven x =
      (((if x / (2 : ℚ) ^ (e - 52) - m < 1 / 2 then m
        else if 1 / 2 < x / (2 : ℚ) ^ (e - 52) - m then m + 1
        else if m % 2 = 0 then m else m + 1 : Int) : ℚ)) * (2 : ℚ) ^ (e - 52) := by
  unfold roundNearestEven
  have hfloor : ⌊x / (2 : ℚ) ^ (e - 52)⌋ = m := Int.floor_eq_iff.2 ⟨hm, hm'⟩
  have hnlt : ¬ x < 0 := not_lt.2 hx.le
  simp only [hx.ne', if_false, abs_of_pos hx, log_two_eq x e hx h1 h2, max_eq_left he,
    hfloor, hnlt, one_mul]

/-- The conversion `float64(n)` is exact on the integers of magnitude at most `2 ^ 53`. -/
theorem float64_exact (n : Int) (h : |n| ≤ 2 ^ 53) : float64 n = n := by
  unfold float64
  by_cases hn : n = 0
  · simp [hn, roundNearestEven]
  · have hx : (n : ℚ) ≠ 0 := by exact_mod_cast hn
    have hpos : (0 : ℚ) < |(n : ℚ)| := abs_pos.2 hx
    have hb : 1 < (2 : ℕ) := by norm_num
    have habs : |(n : ℚ)| = ((|n| : Int) : ℚ) := by push_cast; rfl
    have hone : (1 : ℚ) ≤ |(n : ℚ)| := by
      rw [habs]
      have : (1 : Int) ≤ |n| := Int.one_le_abs hn
      exact_mod_cast this
    have hle : |(n : ℚ)| ≤ 2 ^ 53 := by
      rw [habs]
      exact_mod_cast h
    have e0 : 0 ≤ Int.log 2 |(n : ℚ)| :=
      (Int.zpow_le_iff_le_log hb hpos).1 (by simpa using hone)
    have e54 : Int.log 2 |(n : ℚ)| < 54 :=
      (Int.lt_zpow_iff_log_lt hb hpos).1 (by
        have : |(n : ℚ)| < 2 ^ 54 := lt_of_le_of_lt hle (by norm_num)
        exact_mod_cast this)
    have hlow := Int.zpow_log_le_self hb hpos
    obtain ⟨e, he⟩ : ∃ e : ℕ, Int.log 2 |(n : ℚ)| = e := ⟨_, (Int.toNat_of_nonneg e0).symm⟩
    rw [he] at hlow e54
    have e54' : e < 54 := by exact_mod_cast e54
    have hmax : max (Int.log 2 |(n : ℚ)|) (-1022) = (e : Int) := by
      rw [he]
      exact max_eq_left (by omega)
    by_cases h52 : e ≤ 52
    · apply roundNearestEven_of_mantissa (n : ℚ) (|n| * 2 ^ (52 - e))
      rw [hmax, habs]
      push_cast
      rw [mul_assoc, ← zpow_natCast, ← zpow_add₀ (by norm_num : (2 : ℚ) ≠ 0)]
      have : ((52 - e : ℕ) : Int) + ((e : Int) - 52) = 0 := by omega
      rw [this]
      simp
    · have heq : e = 53 := by omega
      subst heq
      have hlow' : (2 : ℚ) ^ 53 ≤ |(n : ℚ)| := by
        have := hlow
        norm_num at this
        norm_num
        exact this
      have hval : |(n : ℚ)| = 2 ^ 53 := le_antisymm hle hlow'
      apply roundNearestEven_of_mantissa (n : ℚ) (2 ^ 52)
      rw [hmax, hval]
      norm_num

theorem float64_two_pow_53_succ : float64 9007199254740993 = 9007199254740992 := by
  unfold float64 roundNearestEven
  have hlog : Int.log 2 |((9007199254740993 : Int) : ℚ)| = 53 := by
    apply log_two_eq <;> norm_num
  simp only [hlog]
  norm_num

theorem Seconds_one_and_a_half : Duration.Seconds 1500000000 = 3 / 2 := by
  unfold Duration.Seconds
  have hsec : (1500000000 : Int).tdiv 1000000000 = 1 := by decide
  have hnsec : (1500000000 : Int).tmod 1000000000 = 500000000 := by decide
  simp only [hsec, hnsec]
  rw [float64_exact 1 (by norm_num), float64_exact 500000000 (by norm_num)]
  have hhalf : roundNearestEven (((500000000 : Int) : ℚ) / 1000000000) = 1 / 2 := by
    have h0 : ((500000000 : Int) : ℚ) / 1000000000 = 1 / 2 := by norm_num
    rw [h0]
    apply roundNearestEven_of_exponent_pos _ (-1) (2 ^ 52) <;> norm_num
  rw [hhalf]
  have h1 : ((1 : Int) : ℚ) + 1 / 2 = 3 / 2 := by norm_num
  rw [h1]
  apply roundNearestEven_of_exponent_pos _ 0 (3 * 2 ^ 51) <;> norm_num

theorem Seconds_tenth :
    Duration.Seconds 100000000 = 3602879701896397 / 36028797018963968 := by
  unfold Duration.Seconds
  have hsec : (100000000 : Int).tdiv 1000000000 = 0 := by decide
  have hnsec : (100000000 : Int).tmod 1000000000 = 100000000 := by decide
  simp only [hsec, hnsec]
  rw [float64_exact 0 (by norm_num), float64_exact 100000000 (by norm_num)]
  have hdiv : roundNearestEven (((100000000 : Int) : ℚ) / 1000000000) =
      3602879701896397 / 36028797018963968 := by
    have h0 : ((100000000 : Int) : ℚ) / 1000000000 = 1 / 10 := by norm_num
    rw [h0, roundNearestEven_pos_eval (1 / 10) (-4) 7205759403792793 (by norm_num)
      (by norm_num) (by norm_num) (by norm_num) (by norm_num) (by norm_num)]
    norm_num
  rw [hdiv]
  have h1 : ((0 : Int) : ℚ) + 3602879701896397 / 36028797018963968 =
      3602879701896397 / 36028797018963968 := by norm_num
  rw [h1]
  apply roundNearestEven_of_exponent_pos _ (-4) 7205759403792794 <;> norm_num

theorem collectConnectionStats_values (d : database) (g : databaseGauges) (l : Labels)
    (hl : Labels.sameMap [(labelDatabase, d.name), (labelDriver, d.driverName)] l = true) :
    (d.collectConnectionStats g).idle.value l = some (float64 d.db.Stats.Idle) ∧
    (d.collectConnectionStats g).inUse.value l = some (float64 d.db.Stats.InUse) ∧
    (d.collectConnectionStats g).open_.value l = some (float64 d.db.Stats.OpenConnections) ∧
    (d.collectConnectionStats g).maxOpen.value l =
      some (float64 d.db.Stats.MaxOpenConnections) ∧
    (d.collectConnectionStats g).waitedFor.value l = some (float64 d.db.Stats.WaitCount) ∧
    (d.collectConnectionStats g).blockedSeconds.value l =
      some (Duration.Seconds d.db.Stats.WaitDuration) ∧
    (d.collectConnectionStats g).closedMaxIdle.value l =
      some (float64 d.db.Stats.MaxIdleClosed) ∧
    (d.collectConnectionStats g).closedMaxLifetime.value l =
      some (float64 d.db.Stats.MaxLifetimeClosed) := by
  unfold database.collectConnectionStats
  exact ⟨GaugeVec.value_WithSet _ _ _ _ hl, GaugeVec.value_WithSet _ _ _ _ hl,
    GaugeVec.value_WithSet _ _ _ _ hl, GaugeVec.value_WithSet _ _ _ _ hl,
    GaugeVec.value_WithSet _ _ _ _ hl, GaugeVec.value_WithSet _ _ _ _ hl,
    GaugeVec.value_WithSet _ _ _ _ hl, GaugeVec.value_WithSet _ _ _ _ hl⟩

/-- C8, as amended: for every database binding `d`, every statistics snapshot of its pool
and every prior content `g` of the gauges, after `collectConnectionStats` the series
labelled `{database: d.name, driver: d.driverName}` (in either listing) of the eight
gauges hold `float64(Idle)`, `float64(InUse)`, `float64(OpenConnections)`,
`float64(MaxOpenConnections)`, `float64(WaitCount)`, `WaitDuration.Seconds()`,
`float64(MaxIdleClosed)` and `float64(MaxLifetimeClosed)` of the snapshot, whatever `g`
was; so after two consecutive samples the gauges hold the second snapshot; each gauge
receives exactly one `Set`; `float64(n)` is `n` itself for every integer of magnitude at
most `2 ^ 53`; and the sample `2, 3, 5, 10, 7, 1.5s, 1, 0` yields the eight values
`2, 3, 5, 10, 7, 1.5, 1, 0`. -/
theorem collectConnectionStats_sets (d : database) (g : databaseGauges) :
    (∀ l : Labels,
      Labels.sameMap [(labelDatabase, d.name), (labelDriver, d.driverName)] l = true →
      (d.collectConnectionStats g).idle.value l = some (float64 d.db.Stats.Idle) ∧
      (d.collectConnectionStats g).inUse.value l = some (float64 d.db.Stats.InUse) ∧
      (d.collectConnectionStats g).open_.value l =
        some (float64 d.db.Stats.OpenConnections) ∧
      (d.collectConnectionStats g).maxOpen.value l =
        some (float64 d.db.Stats.MaxOpenConnections) ∧
      (d.collectConnectionStats g).waitedFor.value l = some (float64 d.db.Stats.WaitCount) ∧
      (d.collectConnectionStats g).blockedSeconds.value l =
        some (Duration.Seconds d.db.Stats.WaitDuration) ∧
      (d.collectConnectionStats g).closedMaxIdle.value l =
        some (float64 d.db.Stats.MaxIdleClosed) ∧
      (d.collectConnectionStats g).closedMaxLifetime.value l =
        some (float64 d.db.Stats.MaxLifetimeClosed)) ∧
    Labels.sameMap [(labelDatabase, d.name), (labelDriver, d.driverName)]
      [(labelDatabase, d.name), (labelDriver, d.driverName)] = true ∧
    Labels.sameMap [(labelDatabase, d.name), (labelDriver, d.driverName)]
      [(labelDriver, d.driverName), (labelDatabase, d.name)] = true ∧
    (∀ (first : SqlDB) (l : Labels),
      Labels.sameMap [(labelDatabase, d.name), (labelDriver, d.driverName)] l = true →
      let g₂ := d.collectConnectionStats ({ d with db := first }.collectConnectionStats g)
      g₂.idle.value l = some (float64 d.db.Stats.Idle) ∧
      g₂.inUse.value l = some (float64 d.db.Stats.InUse) ∧
      g₂.open_.value l = some (float64 d.db.Stats.OpenConnections) ∧
      g₂.maxOpen.value l = some (float64 d.db.Stats.MaxOpenConnections) ∧
      g₂.waitedFor.value l = some (float64 d.db.Stats.WaitCount) ∧
      g₂.blockedSeconds.value l = some (Duration.Seconds d.db.Stats.WaitDuration) ∧
      g₂.closedMaxIdle.value l = some (float64 d.db.Stats.MaxIdleClosed) ∧
      g₂.closedMaxLifetime.value l = some (float64 d.db.Stats.MaxLifetimeClosed)) ∧
    d.collectConnectionStats g =
      { idle := g.idle.WithSet [(labelDatabase, d.name), (labelDriver, d.driverName)]
          (float64 d.db.Stats.Idle)
        inUse := g.inUse.WithSet [(labelDatabase, d.name), (labelDriver, d.driverName)]
          (float64 d.db.Stats.InUse)
        open_ := g.open_.WithSet [(labelDatabase, d.name), (labelDriver, d.driverName)]
          (float64 d.db.Stats.OpenConnections)
        maxOpen := g.maxOpen.WithSet [(labelDatabase, d.name), (labelDriver, d.driverName)]
          (float64 d.db.Stats.MaxOpenConnections)
        waitedFor := g.waitedFor.WithSet [(labelDatabase, d.name), (labelDriver, d.driverName)]
          (float64 d.db.Stats.WaitCount)
        blockedSeconds :=
          g.blockedSeconds.WithSet [(labelDatabase, d.name), (labelDriver, d.driverName)]
            (Duration.Seconds d.db.Stats.WaitDuration)
        closedMaxIdle :=
          g.closedMaxIdle.WithSet [(labelDatabase, d.name), (labelDriver, d.driverName)]
            (float64 d.db.Stats.MaxIdleClosed)
        closedMaxLifetime :=
          g.closedMaxLifetime.WithSet [(labelDatabase, d.name), (labelDriver, d.driverName)]
            (float64 d.db.Stats.MaxLifetimeClosed) } ∧
    (∀ n : Int, |n| ≤ 2 ^ 53 → float64 n = n) ∧
    (∀ name driverName : String,
      let g₁ := (newDatabase ⟨name, driverName⟩
        ⟨{ MaxOpenConnections := 10, OpenConnections := 5, InUse := 3, Idle := 2,
           WaitCount := 7, WaitDuration := 1500000000, MaxIdleClosed := 1,
           MaxIdleTimeClosed := 0, MaxLifetimeClosed := 0 }⟩).collectConnectionStats g
      let l : Labels := [(labelDatabase, name), (labelDriver, driverName)]
      [g₁.idle.value l, g₁.inUse.value l, g₁.open_.value l, g₁.maxOpen.value l,
        g₁.waitedFor.value l, g₁.blockedSeconds.value l, g₁.closedMaxIdle.value l,
        g₁.closedMaxLifetime.value l] =
      [some 2, some 3, some 5, some 10, some 7, some (3 / 2), some 1, some 0]) := by
  refine ⟨collectConnectionStats_values d g, Labels.sameMap_refl _,
    sameMap_defaultLabels_swap _ _, ?_, rfl, float64_exact, ?_⟩
  · intro first l hl
    exact collectConnectionStats_values d _ l hl
  · intro name driverName
    obtain ⟨h1, h2, h3, h4, h5, h6, h7, h8⟩ :=
      collectConnectionStats_values (newDatabase ⟨name, driverName⟩
        ⟨{ MaxOpenConnections := 10, OpenConnections := 5, InUse := 3, Idle := 2,
           WaitCount := 7, WaitDuration := 1500000000, MaxIdleClosed := 1,
           MaxIdleTimeClosed := 0, MaxLifetimeClosed := 0 }⟩) g
        [(labelDatabase, name), (labelDriver, driverName)] (Labels.sameMap_refl _)
    simp only [h1, h2, h3, h4, h5, h6, h7, h8]
    show [some (float64 2), some (float64 3), some (float64 5), some (float64 10),
      some (float64 7), some (Duration.Seconds 1500000000), some (float64 1),
      some (float64 0)] = _
    rw [float64_exact 2 (by norm_num), float64_exact 3 (by norm_num),
      float64_exact 5 (by norm_num), float64_exact 10 (by norm_num),
      float64_exact 7 (by norm_num), float64_exact 1 (by norm_num),
      float64_exact 0 (by norm_num), Seconds_one_and_a_half]
    norm_num

/-- C8, as stated, fails: for the pool that reports a wait count of `2 ^ 53 + 1` and a
wait duration of 100 milliseconds, the gauge `waitedFor` holds `2 ^ 53`, which is not
the wait count, and the gauge `blockedSeconds` holds the `float64` nearest to one tenth,
which is not the wait duration in seconds. -/
theorem collectConnectionStats_rounds :
    largeSample.binding.db.Stats.WaitCount = 9007199254740993 ∧
    largeSample.gauges.waitedFor.value [(labelDatabase, "orders"), (labelDriver, "postgres")] =
      some 9007199254740992 ∧
    (9007199254740992 : ℚ) ≠ ((9007199254740993 : Int) : ℚ) ∧
    largeSample.binding.db.Stats.WaitDuration = 100000000 ∧
    largeSample.gauges.blockedSeconds.value
        [(labelDatabase, "orders"), (labelDriver, "postgres")] =
      some (3602879701896397 / 36028797018963968) ∧
    (3602879701896397 / 36028797018963968 : ℚ) ≠ ((100000000 : Int) : ℚ) / 1000000000 := by
  obtain ⟨-, -, -, -, h5, h6, -, -⟩ :=
    collectConnectionStats_values largeSample.binding (databaseGauges.create "app")
      [(labelDatabase, "orders"), (labelDriver, "postgres")] (Labels.sameMap_refl _)
  refine ⟨rfl, ?_, by norm_num, rfl, ?_, by norm_num⟩
  · have h := h5
    rw [show largeSample.binding.db.Stats.WaitCount = 9007199254740993 from rfl,
      float64_two_pow_53_succ] at h
    exact h
  · have h := h6
    rw [show largeSample.binding.db.Stats.WaitDuration = 100000000 from rfl,
      Seconds_tenth] at h
    exact h



/-! ## Hook names -/

theorem callbackName_eq (c : pluginOpts) (op : String) :
    c.callbackName op = c.gormPluginScope ++ ":" ++ op := rfl

theorem callbackName_literal (c : pluginOpts) (op : String) :
    c.callbackName op = c.gormPluginScope ++ (":" ++ op) := by
  rw [callbackName_eq, String.append_assoc]

theorem callbackName_injective (c₁ c₂ : pluginOpts) (op₁ op₂ : String)
    (h₁ : op₁ ∈ ["after_create", "after_delete", "after_query", "after_update"])
    (h₂ : op₂ ∈ ["after_create", "after_delete", "after_query", "after_update"])
    (h : c₁.callbackName op₁ = c₂.callbackName op₂) :
    c₁.gormPluginScope = c₂.gormPluginScope ∧ op₁ = op₂ := by
  simp only [callbackName_eq] at h
  have hd := congrArg String.data h
  simp only [String.data_append] at hd
  have hr := congrArg List.reverse hd
  simp only [List.mem_cons, List.mem_singleton, List.not_mem_nil, or_false] at h₁ h₂
  rcases h₁ with rfl | rfl | rfl | rfl <;> rcases h₂ with rfl | rfl | rfl | rfl <;>
    simp at hr <;> exact ⟨String.ext hr, rfl⟩

/-- C9: for every scope string `s` and operation name `op`, `callbackName(op)` is `s`
followed by `:` followed by `op`; `registerCallback` adds to the registrar, in this
order, the handlers `afterCreate`, `afterDelete`, `afterQuery` and `afterUpdate` under
the names `s:after_create`, `s:after_delete`, `s:after_query` and `s:after_update`,
each after the corresponding built-in hook; and for all scopes and all operations among
the four, two names are equal only if the scopes are equal and the operations are
equal. -/
theorem callbackName_spec (c : pluginOpts) (op : String) :
    c.callbackName op = c.gormPluginScope ++ ":" ++ op ∧
    (∀ (h : callbackHandler) (cb : Callback),
      h.registerCallback cb = cb ++
        [⟨Processor.Create, "gorm:after_create",
            h.opts.gormPluginScope ++ ":after_create", h.afterCreate⟩,
          ⟨Processor.Delete, "gorm:after_delete",
            h.opts.gormPluginScope ++ ":after_delete", h.afterDelete⟩,
          ⟨Processor.Query, "gorm:after_query",
            h.opts.gormPluginScope ++ ":after_query", h.afterQuery⟩,
          ⟨Processor.Update, "gorm:after_update",
            h.opts.gormPluginScope ++ ":after_update", h.afterUpdate⟩]) ∧
    (∀ (c₁ c₂ : pluginOpts) (op₁ op₂ : String),
      op₁ ∈ ["after_create", "after_delete", "after_query", "after_update"] →
      op₂ ∈ ["after_create", "after_delete", "after_query", "after_update"] →
      c₁.callbackName op₁ = c₂.callbackName op₂ →
      c₁.gormPluginScope = c₂.gormPluginScope ∧ op₁ = op₂) := by
  refine ⟨rfl, ?_, callbackName_injective⟩
  intro h cb
  unfold callbackHandler.registerCallback
  simp only [callbackName_literal, List.append_assoc, List.cons_append, List.nil_append]
  rfl

/-! ## The registry -/

theorem GoMap.set_of_get?_none {β : Type} (m : GoMap β) (k : String) (v : β)
    (h : GoMap.get? m k = none) : GoMap.set m k v = m ++ [(k, v)] := by
  induction m with
  | nil => rfl
  | cons e t ih =>
    obtain ⟨k', v'⟩ := e
    by_cases hk : k' = k
    · simp [GoMap.get?, hk] at h
    · simp only [GoMap.get?, hk, if_false] at h
      simp [GoMap.set, hk, ih h]

theorem GoMap.mem_of_get? {β : Type} (m : GoMap β) (k : String) (v : β)
    (h : GoMap.get? m k = some v) : (k, v) ∈ m := by
  induction m with
  | nil => simp [GoMap.get?] at h
  | cons e t ih =>
    obtain ⟨k', v'⟩ := e
    by_cases hk : k' = k
    · simp only [GoMap.get?, hk, if_true, Option.some.injEq] at h
      simp [hk, h]
    · simp only [GoMap.get?, hk, if_false] at h
      exact List.mem_cons_of_mem _ (ih h)

theorem registerCollectors_cons_err {σ : Type} (R : Registerer σ) (c : Collector)
    (rest : List Collector) (w : World σ) (err : String) (b : σ)
    (h : R.Register w.backend c = (some err, b)) :
    registerCollectors R (c :: rest) w =
      (some err, { w with backend := b, calls := w.calls ++ [c] }) := by
  rw [registerCollectors, h]

theorem registerCollectors_cons_ok {σ : Type} (R : Registerer σ) (c : Collector)
    (rest : List Collector) (w : World σ) (b : σ)
    (h : R.Register w.backend c = (none, b)) :
    registerCollectors R (c :: rest) w =
      registerCollectors R rest { w with backend := b, calls := w.calls ++ [c] } := by
  rw [registerCollectors, h]

theorem registerCollectors_frame {σ : Type} (R : Registerer σ) (cs : List Collector)
    (w : World σ) :
    (registerCollectors R cs w).2.collectors = w.collectors ∧
    (registerCollectors R cs w).2.qheap = w.qheap ∧
    (registerCollectors R cs w).2.dheap = w.dheap := by
  induction cs generalizing w with
  | nil => exact ⟨rfl, rfl, rfl⟩
  | cons c rest ih =>
    rcases hreg : R.Register w.backend c with ⟨_ | err, b⟩
    · rw [registerCollectors_cons_ok R c rest w b hreg]
      exact ih _
    · rw [registerCollectors_cons_err R c rest w err b hreg]
      exact ⟨rfl, rfl, rfl⟩

theorem registerCollectors_calls_ok {σ : Type} (R : Registerer σ) (cs : List Collector)
    (w : World σ) (h : (registerCollectors R cs w).1 = none) :
    (registerCollectors R cs w).2.calls = w.calls ++ cs := by
  induction cs generalizing w with
  | nil => simp [registerCollectors]
  | cons c rest ih =>
    rcases hreg : R.Register w.backend c with ⟨_ | err, b⟩
    · rw [registerCollectors_cons_ok R c rest w b hreg] at h ⊢
      rw [ih _ h]
      simp
    · rw [registerCollectors_cons_err R c rest w err b hreg] at h
      simp at h

theorem registerCollectors_calls_more {σ : Type} (R : Registerer σ) (cs : List Collector)
    (w : World σ) : ∃ more, (registerCollectors R cs w).2.calls = w.calls ++ more := by
  induction cs generalizing w with
  | nil => exact ⟨[], by simp [registerCollectors]⟩
  | cons c rest ih =>
    rcases hreg : R.Register w.backend c with ⟨_ | err, b⟩
    · rw [registerCollectors_cons_ok R c rest w b hreg]
      obtain ⟨more, hm⟩ := ih { w with backend := b, calls := w.calls ++ [c] }
      exact ⟨c :: more, by rw [hm]; simp⟩
    · rw [registerCollectors_cons_err R c rest w err b hreg]
      exact ⟨[c], rfl⟩

theorem registerCollectors_calls_cons {σ : Type} (R : Registerer σ) (c : Collector)
    (rest : List Collector) (w : World σ) :
    ∃ more, (registerCollectors R (c :: rest) w).2.calls = w.calls ++ c :: more := by
  rcases hreg : R.Register w.backend c with ⟨_ | err, b⟩
  · rw [registerCollectors_cons_ok R c rest w b hreg]
    obtain ⟨more, hm⟩ :=
      registerCollectors_calls_more R rest { w with backend := b, calls := w.calls ++ [c] }
    exact ⟨more, by rw [hm]; simp⟩
  · rw [registerCollectors_cons_err R c rest w err b hreg]
    exact ⟨[], rfl⟩

theorem registerCollectors_append {σ : Type} (R : Registerer σ) (pre post : List Collector)
    (w : World σ) (h : (registerCollectors R pre w).1 = none) :
    registerCollectors R (pre ++ post) w =
      registerCollectors R post (registerCollectors R pre w).2 := by
  induction pre generalizing w with
  | nil => rfl
  | cons c rest ih =>
    rw [List.cons_append]
    rcases hreg : R.Register w.backend c with ⟨_ | err, b⟩
    · rw [registerCollectors_cons_ok R c rest w b hreg] at h ⊢
      rw [registerCollectors_cons_ok R c (rest ++ post) w b hreg]
      exact ih _ h
    · rw [registerCollectors_cons_err R c rest w err b hreg] at h
      simp at h

theorem registerCollectors_rejected {σ : Type} (R : Registerer σ)
    (pre post : List Collector) (c : Collector) (e : String) (w : World σ)
    (hpre : (registerCollectors R pre w).1 = none)
    (hrej : (R.Register (registerCollectors R pre w).2.backend c).1 = some e) :
    (registerCollectors R (pre ++ c :: post) w).1 = some e := by
  rw [registerCollectors_append R pre (c :: post) w hpre]
  rcases hreg : R.Register (registerCollectors R pre w).2.backend c with ⟨_ | err, b⟩
  · rw [hreg] at hrej
    simp at hrej
  · rw [hreg] at hrej
    rw [registerCollectors_cons_err R c post _ err b hreg]
    exact hrej

theorem newQueryCounters_hit {σ : Type} (R : Registerer σ) (ns : String) (w : World σ)
    (gc : Nat) (h : GoMap.get? w.collectors.query ns = some gc) :
    newQueryCounters R ns w = (.ok gc, w) := by
  rw [newQueryCounters, h]

theorem newQueryCounters_miss_err {σ : Type} (R : Registerer σ) (ns : String) (w : World σ)
    (err : String) (w' : World σ) (h : GoMap.get? w.collectors.query ns = none)
    (hreg : registerCollectors R (queryCounters.collectors ns) w = (some err, w')) :
    newQueryCounters R ns w =
      (.error (errors.Wrap err "could not register collectors"), w') := by
  rw [newQueryCounters, h]
  simp only [hreg]

theorem newQueryCounters_miss_ok {σ : Type} (R : Registerer σ) (ns : String) (w : World σ)
    (w' : World σ) (h : GoMap.get? w.collectors.query ns = none)
    (hreg : registerCollectors R (queryCounters.collectors ns) w = (none, w')) :
    newQueryCounters R ns w =
      (.ok w'.qheap.length,
        { w' with
          qheap := w'.qheap ++ [queryCounters.create ns]
          collectors :=
            { w'.collectors with
              query := GoMap.set w'.collectors.query ns w'.qheap.length } }) := by
  rw [newQueryCounters, h]
  simp only [hreg]

theorem newDatabaseGauges_hit {σ : Type} (R : Registerer σ) (ns : String) (w : World σ)
    (gc : Nat) (h : GoMap.get? w.collectors.database ns = some gc) :
    newDatabaseGauges R ns w = (.ok gc, w) := by
  rw [newDatabaseGauges, h]

theorem newDatabaseGauges_miss_err {σ : Type} (R : Registerer σ) (ns : String) (w : World σ)
    (err : String) (w' : World σ) (h : GoMap.get? w.collectors.database ns = none)
    (hreg : registerCollectors R (databaseGauges.collectors ns) w = (some err, w')) :
    newDatabaseGauges R ns w = (.error err, w') := by
  rw [newDatabaseGauges, h]
  simp only [hreg]

theorem newDatabaseGauges_miss_ok {σ : Type} (R : Registerer σ) (ns : String) (w : World σ)
    (w' : World σ) (h : GoMap.get? w.collectors.database ns = none)
    (hreg : registerCollectors R (databaseGauges.collectors ns) w = (none, w')) :
    newDatabaseGauges R ns w =
      (.ok w'.dheap.length,
        { w' with
          dheap := w'.dheap ++ [databaseGauges.create ns]
          collectors :=
            { w'.collectors with
              database := GoMap.set w'.collectors.database ns w'.dheap.length } }) := by
  rw [newDatabaseGauges, h]
  simp only [hreg]

/-- What a successful call of `newQueryCounters` leaves behind: the namespace is cached
at the returned address; on the miss path the address is fresh, the bundle is allocated
there, and `Register` was called once for each of the five collectors, in order. -/
theorem newQueryCounters_ok {σ : Type} (R : Registerer σ) (ns : String) (w : World σ)
    (b : Nat) (h : (newQueryCounters R ns w).1 = .ok b) :
    GoMap.get? (newQueryCounters R ns w).2.collectors.query ns = some b ∧
    (GoMap.get? w.collectors.query ns = none →
      b = w.qheap.length ∧
      (newQueryCounters R ns w).2.qheap = w.qheap ++ [queryCounters.create ns] ∧
      (newQueryCounters R ns w).2.calls = w.calls ++ queryCounters.collectors ns ∧
      (newQueryCounters R ns w).2.collectors.query = GoMap.set w.collectors.query ns b) ∧
    (∀ gc, GoMap.get? w.collectors.query ns = some gc →
      b = gc ∧ (newQueryCounters R ns w).2 = w) := by
  cases hq : GoMap.get? w.collectors.query ns with
  | some gc =>
    rw [newQueryCounters_hit R ns w gc hq] at h ⊢
    simp only [Except.ok.injEq] at h
    subst h
    exact ⟨hq, fun hn => by simp at hn, fun gc' hg => ⟨by simpa using hg, rfl⟩⟩
  | none =>
    rcases hreg : registerCollectors R (queryCounters.collectors ns) w with ⟨_ | err, w'⟩
    · have hfr := registerCollectors_frame R (queryCounters.collectors ns) w
      have hcalls := registerCollectors_calls_ok R (queryCounters.collectors ns) w
        (by rw [hreg])
      rw [hreg] at hfr hcalls
      simp only at hfr hcalls
      rw [newQueryCounters_miss_ok R ns w w' hq hreg] at h ⊢
      simp only [Except.ok.injEq] at h
      subst h
      refine ⟨GoMap.get?_set_self _ _ _, fun _ => ?_, fun gc hg => by simp at hg⟩
      simp only [hfr.1, hfr.2.1, hcalls, and_self]
    · rw [newQueryCounters_miss_err R ns w err w' hq hreg] at h
      simp at h

theorem newDatabaseGauges_ok {σ : Type} (R : Registerer σ) (ns : String) (w : World σ)
    (b : Nat) (h : (newDatabaseGauges R ns w).1 = .ok b) :
    GoMap.get? (newDatabaseGauges R ns w).2.collectors.database ns = some b ∧
    (GoMap.get? w.collectors.database ns = none →
      b = w.dheap.length ∧
      (newDatabaseGauges R ns w).2.dheap = w.dheap ++ [databaseGauges.create ns] ∧
      (newDatabaseGauges R ns w).2.calls = w.calls ++ databaseGauges.collectors ns ∧
      (newDatabaseGauges R ns w).2.collectors.database =
        GoMap.set w.collectors.database ns b) ∧
    (∀ gc, GoMap.get? w.collectors.database ns = some gc →
      b = gc ∧ (newDatabaseGauges R ns w).2 = w) := by
  cases hq : GoMap.get? w.collectors.database ns with
  | some gc =>
    rw [newDatabaseGauges_hit R ns w gc hq] at h ⊢
    simp only [Except.ok.injEq] at h
    subst h
    exact ⟨hq, fun hn => by simp at hn, fun gc' hg => ⟨by simpa using hg, rfl⟩⟩
  | none =>
    rcases hreg : registerCollectors R (databaseGauges.collectors ns) w with ⟨_ | err, w'⟩
    · have hfr := registerCollectors_frame R (databaseGauges.collectors ns) w
      have hcalls := registerCollectors_calls_ok R (databaseGauges.collectors ns) w
        (by rw [hreg])
      rw [hreg] at hfr hcalls
      simp only at hfr hcalls
      rw [newDatabaseGauges_miss_ok R ns w w' hq hreg] at h ⊢
      simp only [Except.ok.injEq] at h
      subst h
      refine ⟨GoMap.get?_set_self _ _ _, fun _ => ?_, fun gc hg => by simp at hg⟩
      simp only [hfr.1, hfr.2.2, hcalls, and_self]
    · rw [newDatabaseGauges_miss_err R ns w err w' hq hreg] at h
      simp at h

/-- C1: for every backend, every namespace and every state in which `newQueryCounters`
succeeds with bundle `b`, the immediately following call for the same namespace returns
`b` and no error and leaves the whole state as it is: the cache, the allocated bundles,
the backend state and the log of `Register` calls (no registration call is made).  When
the namespace was not cached before the first call, the two calls together make one
`Register` call for each collector of the bundle.  The same holds for
`newDatabaseGauges`. -/
theorem registration_once {σ : Type} (R : Registerer σ) (ns : String) (w : World σ) :
    (∀ b, (newQueryCounters R ns w).1 = .ok b →
      newQueryCounters R ns (newQueryCounters R ns w).2 =
        (.ok b, (newQueryCounters R ns w).2) ∧
      (GoMap.get? w.collectors.query ns = none →
        (newQueryCounters R ns (newQueryCounters R ns w).2).2.calls =
          w.calls ++ queryCounters.collectors ns)) ∧
    (∀ b, (newDatabaseGauges R ns w).1 = .ok b →
      newDatabaseGauges R ns (newDatabaseGauges R ns w).2 =
        (.ok b, (newDatabaseGauges R ns w).2) ∧
      (GoMap.get? w.collectors.database ns = none →
        (newDatabaseGauges R ns (newDatabaseGauges R ns w).2).2.calls =
          w.calls ++ databaseGauges.collectors ns)) := by
  constructor
  · intro b h
    obtain ⟨hget, hmiss, -⟩ := newQueryCounters_ok R ns w b h
    have h2 := newQueryCounters_hit R ns _ b hget
    refine ⟨h2, fun hn => ?_⟩
    rw [h2]
    exact (hmiss hn).2.2.1
  · intro b h
    obtain ⟨hget, hmiss, -⟩ := newDatabaseGauges_ok R ns w b h
    have h2 := newDatabaseGauges_hit R ns _ b hget
    refine ⟨h2, fun hn => ?_⟩
    rw [h2]
    exact (hmiss hn).2.2.1

/-- Witness of C1: on an empty registry over the Prometheus backend, the first call for
`app` succeeds with the bundle at address 0, and so does the second. -/
theorem registration_once_witness :
    (newQueryCounters prometheus "app" (World.init [])).1 = .ok 0 ∧
    (newQueryCounters prometheus "app"
      (newQueryCounters prometheus "app" (World.init [])).2).1 = .ok 0 ∧
    (newDatabaseGauges prometheus "app" (World.init [])).1 = .ok 0 ∧
    (newDatabaseGauges prometheus "app"
      (newDatabaseGauges prometheus "app" (World.init [])).2).1 = .ok 0 :=
  ⟨rfl,
   congrArg Prod.fst
    (((registration_once prometheus "app" (World.init [])).1 0 rfl).1),
   rfl,
   congrArg Prod.fst
    (((registration_once prometheus "app" (World.init [])).2 0 rfl).1)⟩

theorem newQueryCounters_miss_frame {σ : Type} (R : Registerer σ) (ns : String)
    (w : World σ) (h : GoMap.get? w.collectors.query ns = none) :
    (newQueryCounters R ns w).2.calls =
      (registerCollectors R (queryCounters.collectors ns) w).2.calls ∧
    (newQueryCounters R ns w).2.backend =
      (registerCollectors R (queryCounters.collectors ns) w).2.backend := by
  rcases hreg : registerCollectors R (queryCounters.collectors ns) w with ⟨_ | err, w'⟩
  · rw [newQueryCounters_miss_ok R ns w w' h hreg]
    exact ⟨rfl, rfl⟩
  · rw [newQueryCounters_miss_err R ns w err w' h hreg]
    exact ⟨rfl, rfl⟩

theorem newDatabaseGauges_miss_frame {σ : Type} (R : Registerer σ) (ns : String)
    (w : World σ) (h : GoMap.get? w.collectors.database ns = none) :
    (newDatabaseGauges R ns w).2.calls =
      (registerCollectors R (databaseGauges.collectors ns) w).2.calls ∧
    (newDatabaseGauges R ns w).2.backend =
      (registerCollectors R (databaseGauges.collectors ns) w).2.backend := by
  rcases hreg : registerCollectors R (databaseGauges.collectors ns) w with ⟨_ | err, w'⟩
  · rw [newDatabaseGauges_miss_ok R ns w w' h hreg]
    exact ⟨rfl, rfl⟩
  · rw [newDatabaseGauges_miss_err R ns w err w' h hreg]
    exact ⟨rfl, rfl⟩

theorem newQueryCounters_rejected {σ : Type} (R : Registerer σ) (ns : String) (w : World σ)
    (e : String) (h : GoMap.get? w.collectors.query ns = none)
    (hrej : (registerCollectors R (queryCounters.collectors ns) w).1 = some e) :
    (newQueryCounters R ns w).1 = .error (errors.Wrap e "could not register collectors") ∧
    (newQueryCounters R ns w).2.collectors = w.collectors ∧
    (newQueryCounters R ns w).2.qheap = w.qheap ∧
    (newQueryCounters R ns w).2.dheap = w.dheap := by
  have hfr := registerCollectors_frame R (queryCounters.collectors ns) w
  rcases hreg : registerCollectors R (queryCounters.collectors ns) w with ⟨_ | err, w'⟩
  · rw [hreg] at hrej
    simp at hrej
  · rw [hreg] at hrej hfr
    simp only [Option.some.injEq] at hrej
    subst hrej
    rw [newQueryCounters_miss_err R ns w err w' h hreg]
    exact ⟨rfl, hfr⟩

theorem newDatabaseGauges_rejected {σ : Type} (R : Registerer σ) (ns : String)
    (w : World σ) (e : String) (h : GoMap.get? w.collectors.database ns = none)
    (hrej : (registerCollectors R (databaseGauges.collectors ns) w).1 = some e) :
    (newDatabaseGauges R ns w).1 = .error e ∧
    (newDatabaseGauges R ns w).2.collectors = w.collectors ∧
    (newDatabaseGauges R ns w).2.qheap = w.qheap ∧
    (newDatabaseGauges R ns w).2.dheap = w.dheap := by
  have hfr := registerCollectors_frame R (databaseGauges.collectors ns) w
  rcases hreg : registerCollectors R (databaseGauges.collectors ns) w with ⟨_ | err, w'⟩
  · rw [hreg] at hrej
    simp at hrej
  · rw [hreg] at hrej hfr
    simp only [Option.some.injEq] at hrej
    subst hrej
    rw [newDatabaseGauges_miss_err R ns w err w' h hreg]
    exact ⟨rfl, hfr⟩

/-- C2: for every backend and every namespace not yet in the cache, if the backend
accepts the collectors `pre` of the bundle and then rejects the next one `c` with error
`e` (whichever position `c` has), then `newQueryCounters` returns no bundle and the
error `e` wrapped, `newDatabaseGauges` returns no bundle and the error `e`; the cache
(both maps) and the allocated bundles are what they were, the namespace is still absent,
and the next call for the namespace calls `Register` again, first for the first
collector of the bundle. -/
theorem registration_failure {σ : Type} (R : Registerer σ) (ns : String) (w : World σ) :
    (∀ pre c post e,
      GoMap.get? w.collectors.query ns = none →
      queryCounters.collectors ns = pre ++ c :: post →
      (registerCollectors R pre w).1 = none →
      (R.Register (registerCollectors R pre w).2.backend c).1 = some e →
      (newQueryCounters R ns w).1 =
        .error (errors.Wrap e "could not register collectors") ∧
      (newQueryCounters R ns w).2.collectors = w.collectors ∧
      (newQueryCounters R ns w).2.qheap = w.qheap ∧
      GoMap.get? (newQueryCounters R ns w).2.collectors.query ns = none ∧
      ∃ more, (newQueryCounters R ns (newQueryCounters R ns w).2).2.calls =
        (newQueryCounters R ns w).2.calls ++
          (⟨ns, metricAllTotal, helpAllTotal, [labelDatabase, labelDriver, labelStatus]⟩
            :: more)) ∧
    (∀ pre c post e,
      GoMap.get? w.collectors.database ns = none →
      databaseGauges.collectors ns = pre ++ c :: post →
      (registerCollectors R pre w).1 = none →
      (R.Register (registerCollectors R pre w).2.backend c).1 = some e →
      (newDatabaseGauges R ns w).1 = .error e ∧
      (newDatabaseGauges R ns w).2.collectors = w.collectors ∧
      (newDatabaseGauges R ns w).2.dheap = w.dheap ∧
      GoMap.get? (newDatabaseGauges R ns w).2.collectors.database ns = none ∧
      ∃ more, (newDatabaseGauges R ns (newDatabaseGauges R ns w).2).2.calls =
        (newDatabaseGauges R ns w).2.calls ++
          (⟨ns, metricIdleConnections, helpIdleConnections, [labelDatabase, labelDriver]⟩
            :: more)) := by
  constructor
  · intro pre c post e hq hsplit hpre hrej
    have hfail := registerCollectors_rejected R pre post c e w hpre hrej
    rw [← hsplit] at hfail
    obtain ⟨h1, h2, h3, -⟩ := newQueryCounters_rejected R ns w e hq hfail
    have hq' : GoMap.get? (newQueryCounters R ns w).2.collectors.query ns = none := by
      rw [h2]
      exact hq
    refine ⟨h1, h2, h3, hq', ?_⟩
    rw [(newQueryCounters_miss_frame R ns _ hq').1]
    exact registerCollectors_calls_cons R _ _ _
  · intro pre c post e hq hsplit hpre hrej
    have hfail := registerCollectors_rejected R pre post c e w hpre hrej
    rw [← hsplit] at hfail
    obtain ⟨h1, h2, -, h3⟩ := newDatabaseGauges_rejected R ns w e hq hfail
    have hq' : GoMap.get? (newDatabaseGauges R ns w).2.collectors.database ns = none := by
      rw [h2]
      exact hq
    refine ⟨h1, h2, h3, hq', ?_⟩
    rw [(newDatabaseGauges_miss_frame R ns _ hq').1]
    exact registerCollectors_calls_cons R _ _ _

/-- Witness of C2: over the Prometheus backend in which `app_deletes_total` is
registered from outside, the third collector of the bundle of `app` is rejected and
`newQueryCounters` fails. -/
theorem registration_failure_witness :
    (newQueryCounters prometheus "app"
      (World.init [⟨"app", "deletes_total", "registered elsewhere", []⟩])).1 =
      .error (errors.Wrap "duplicate metrics collector registration attempted"
        "could not register collectors") ∧
    (newQueryCounters prometheus "app"
      (World.init [⟨"app", "deletes_total", "registered elsewhere", []⟩])).2.collectors =
      { query := [], database := [] } :=
  ⟨((registration_failure prometheus "app"
      (World.init [⟨"app", "deletes_total", "registered elsewhere", []⟩])).1
      [⟨"app", metricAllTotal, helpAllTotal, [labelDatabase, labelDriver, labelStatus]⟩,
       ⟨"app", metricCreatesTotal, helpCreatesTotal,
        [labelDatabase, labelDriver, labelStatus]⟩]
      ⟨"app", metricDeletesTotal, helpDeletesTotal,
        [labelDatabase, labelDriver, labelStatus]⟩
      [⟨"app", metricQueriesTotal, helpQueriesTotal,
        [labelDatabase, labelDriver, labelStatus]⟩,
       ⟨"app", metricUpdatesTotal, helpUpdatesTotal,
        [labelDatabase, labelDriver, labelStatus]⟩]
      "duplicate metrics collector registration attempted" rfl rfl rfl rfl).1,
   ((registration_failure prometheus "app"
      (World.init [⟨"app", "deletes_total", "registered elsewhere", []⟩])).1
      [⟨"app", metricAllTotal, helpAllTotal, [labelDatabase, labelDriver, labelStatus]⟩,
       ⟨"app", metricCreatesTotal, helpCreatesTotal,
        [labelDatabase, labelDriver, labelStatus]⟩]
      ⟨"app", metricDeletesTotal, helpDeletesTotal,
        [labelDatabase, labelDriver, labelStatus]⟩
      [⟨"app", metricQueriesTotal, helpQueriesTotal,
        [labelDatabase, labelDriver, labelStatus]⟩,
       ⟨"app", metricUpdatesTotal, helpUpdatesTotal,
        [labelDatabase, labelDriver, labelStatus]⟩]
      "duplicate metrics collector registration attempted" rfl rfl rfl rfl).2.1⟩

theorem World.WF_init {σ : Type} (b : σ) : (World.init b).WF := by
  simp [World.WF, World.init]

theorem World.WF_of_frame {σ : Type} (w w' : World σ) (hwf : w.WF)
    (hc : w'.collectors = w.collectors) (hq : w'.qheap = w.qheap)
    (hd : w'.dheap = w.dheap) : w'.WF := by
  unfold World.WF at hwf ⊢
  rw [hc, hq, hd]
  exact hwf

theorem GoMap.nodup_snd_append {m : GoMap Nat} {n : Nat} (k : String)
    (hlt : ∀ e ∈ m, e.2 < n) (hnd : (m.map Prod.snd).Nodup) :
    (∀ e ∈ m ++ [(k, n)], e.2 < n + 1) ∧ ((m ++ [(k, n)]).map Prod.snd).Nodup := by
  constructor
  · intro e he
    rcases List.mem_append.1 he with h | h
    · exact Nat.lt_succ_of_lt (hlt e h)
    · simp only [List.mem_singleton] at h
      subst h
      exact Nat.lt_succ_self _
  · rw [List.map_append, List.nodup_append]
    refine ⟨hnd, by simp, ?_⟩
    intro a ha hb
    simp only [List.map_cons, List.map_nil, List.mem_singleton] at hb
    subst hb
    obtain ⟨e, he, rfl⟩ := List.mem_map.1 ha
    exact Nat.lt_irrefl _ (hlt e he)

theorem newQueryCounters_WF {σ : Type} (R : Registerer σ) (ns : String) (w : World σ)
    (hwf : w.WF) : (newQueryCounters R ns w).2.WF := by
  cases hq : GoMap.get? w.collectors.query ns with
  | some gc =>
    rw [newQueryCounters_hit R ns w gc hq]
    exact hwf
  | none =>
    have hfr := registerCollectors_frame R (queryCounters.collectors ns) w
    rcases hreg : registerCollectors R (queryCounters.collectors ns) w with ⟨_ | err, w'⟩
    · rw [hreg] at hfr
      simp only at hfr
      rw [newQueryCounters_miss_ok R ns w w' hq hreg]
      obtain ⟨h1, h2, h3, h4⟩ := hwf
      have hset : GoMap.set w.collectors.query ns w.qheap.length =
          w.collectors.query ++ [(ns, w.qheap.length)] :=
        GoMap.set_of_get?_none _ _ _ hq
      obtain ⟨g1, g2⟩ := GoMap.nodup_snd_append ns h1 h2
      unfold World.WF
      simp only [hfr.1, hfr.2.1, hfr.2.2, hset, List.length_append, List.length_singleton]
      exact ⟨g1, g2, h3, h4⟩
    · rw [hreg] at hfr
      rw [newQueryCounters_miss_err R ns w err w' hq hreg]
      exact World.WF_of_frame w w' hwf hfr.1 hfr.2.1 hfr.2.2

theorem newDatabaseGauges_WF {σ : Type} (R : Registerer σ) (ns : String) (w : World σ)
    (hwf : w.WF) : (newDatabaseGauges R ns w).2.WF := by
  cases hq : GoMap.get? w.collectors.database ns with
  | some gc =>
    rw [newDatabaseGauges_hit R ns w gc hq]
    exact hwf
  | none =>
    have hfr := registerCollectors_frame R (databaseGauges.collectors ns) w
    rcases hreg : registerCollectors R (databaseGauges.collectors ns) w with ⟨_ | err, w'⟩
    · rw [hreg] at hfr
      simp only at hfr
      rw [newDatabaseGauges_miss_ok R ns w w' hq hreg]
      obtain ⟨h1, h2, h3, h4⟩ := hwf
      have hset : GoMap.set w.collectors.database ns w.dheap.length =
          w.collectors.database ++ [(ns, w.dheap.length)] :=
        GoMap.set_of_get?_none _ _ _ hq
      obtain ⟨g1, g2⟩ := GoMap.nodup_snd_append ns h3 h4
      unfold World.WF
      simp only [hfr.1, hfr.2.1, hfr.2.2, hset, List.length_append, List.length_singleton]
      exact ⟨h1, h2, g1, g2⟩
    · rw [hreg] at hfr
      rw [newDatabaseGauges_miss_err R ns w err w' hq hreg]
      exact World.WF_of_frame w w' hwf hfr.1 hfr.2.1 hfr.2.2

theorem newQueryCounters_database {σ : Type} (R : Registerer σ) (ns : String)
    (w : World σ) :
    (newQueryCounters R ns w).2.collectors.database = w.collectors.database ∧
    (newQueryCounters R ns w).2.dheap = w.dheap := by
  cases hq : GoMap.get? w.collectors.query ns with
  | some gc =>
    rw [newQueryCounters_hit R ns w gc hq]
    exact ⟨rfl, rfl⟩
  | none =>
    have hfr := registerCollectors_frame R (queryCounters.collectors ns) w
    rcases hreg : registerCollectors R (queryCounters.collectors ns) w with ⟨_ | err, w'⟩
    · rw [hreg] at hfr
      rw [newQueryCounters_miss_ok R ns w w' hq hreg]
      simp only at hfr ⊢
      rw [hfr.1, hfr.2.2]
      exact ⟨rfl, rfl⟩
    · rw [hreg] at hfr
      rw [newQueryCounters_miss_err R ns w err w' hq hreg]
      simp only at hfr ⊢
      rw [hfr.1, hfr.2.2]
      exact ⟨rfl, rfl⟩

theorem newDatabaseGauges_query {σ : Type} (R : Registerer σ) (ns : String)
    (w : World σ) :
    (newDatabaseGauges R ns w).2.collectors.query = w.collectors.query ∧
    (newDatabaseGauges R ns w).2.qheap = w.qheap := by
  cases hq : GoMap.get? w.collectors.database ns with
  | some gc =>
    rw [newDatabaseGauges_hit R ns w gc hq]
    exact ⟨rfl, rfl⟩
  | none =>
    have hfr := registerCollectors_frame R (databaseGauges.collectors ns) w
    rcases hreg : registerCollectors R (databaseGauges.collectors ns) w with ⟨_ | err, w'⟩
    · rw [hreg] at hfr
      rw [newDatabaseGauges_miss_ok R ns w w' hq hreg]
      simp only at hfr ⊢
      rw [hfr.1, hfr.2.1]
      exact ⟨rfl, rfl⟩
    · rw [hreg] at hfr
      rw [newDatabaseGauges_miss_err R ns w err w' hq hreg]
      simp only at hfr ⊢
      rw [hfr.1, hfr.2.1]
      exact ⟨rfl, rfl⟩

theorem GoMap.key_eq_of_nodup_snd {m : GoMap Nat} (hnd : (m.map Prod.snd).Nodup)
    (k₁ k₂ : String) (a : Nat) (h₁ : GoMap.get? m k₁ = some a)
    (h₂ : GoMap.get? m k₂ = some a) : k₁ = k₂ := by
  have e := List.inj_on_of_nodup_map hnd (GoMap.mem_of_get? m k₁ a h₁)
    (GoMap.mem_of_get? m k₂ a h₂) rfl
  exact congrArg Prod.fst e

theorem queryCounters_collectors_namespace (ns : String) (c : Collector)
    (h : c ∈ queryCounters.collectors ns) : c.Namespace = ns := by
  simp [queryCounters.collectors, queryCounters.create, counterVecCreator.new] at h
  rcases h with rfl | rfl | rfl | rfl | rfl <;> rfl

theorem databaseGauges_collectors_namespace (ns : String) (c : Collector)
    (h : c ∈ databaseGauges.collectors ns) : c.Namespace = ns := by
  simp [databaseGauges.collectors, databaseGauges.create, gaugeVecCreator.new] at h
  rcases h with rfl | rfl | rfl | rfl | rfl | rfl | rfl | rfl <;> rfl

theorem newQueryCounters_other {σ : Type} (R : Registerer σ) (ns ns' : String)
    (w : World σ) (hne : ns ≠ ns') :
    GoMap.get? (newQueryCounters R ns w).2.collectors.query ns' =
      GoMap.get? w.collectors.query ns' := by
  cases hq : GoMap.get? w.collectors.query ns with
  | some gc => rw [newQueryCounters_hit R ns w gc hq]
  | none =>
    have hfr := registerCollectors_frame R (queryCounters.collectors ns) w
    rcases hreg : registerCollectors R (queryCounters.collectors ns) w with ⟨_ | err, w'⟩
    · rw [hreg] at hfr
      rw [newQueryCounters_miss_ok R ns w w' hq hreg]
      simp only at hfr ⊢
      rw [GoMap.get?_set_ne _ _ _ _ hne, hfr.1]
    · rw [hreg] at hfr
      rw [newQueryCounters_miss_err R ns w err w' hq hreg]
      simp only at hfr ⊢
      rw [hfr.1]

theorem newDatabaseGauges_other {σ : Type} (R : Registerer σ) (ns ns' : String)
    (w : World σ) (hne : ns ≠ ns') :
    GoMap.get? (newDatabaseGauges R ns w).2.collectors.database ns' =
      GoMap.get? w.collectors.database ns' := by
  cases hq : GoMap.get? w.collectors.database ns with
  | some gc => rw [newDatabaseGauges_hit R ns w gc hq]
  | none =>
    have hfr := registerCollectors_frame R (databaseGauges.collectors ns) w
    rcases hreg : registerCollectors R (databaseGauges.collectors ns) w with ⟨_ | err, w'⟩
    · rw [hreg] at hfr
      rw [newDatabaseGauges_miss_ok R ns w w' hq hreg]
      simp only at hfr ⊢
      rw [GoMap.get?_set_ne _ _ _ _ hne, hfr.1]
    · rw [hreg] at hfr
      rw [newDatabaseGauges_miss_err R ns w err w' hq hreg]
      simp only at hfr ⊢
      rw [hfr.1]

/-- C4, as amended: for every backend, every state satisfying the registry invariant and
all namespaces `N1 ≠ N2` (compared as raw strings), when `newQueryCounters(N1)` succeeds
with bundle `b1` and the following `newQueryCounters(N2)` succeeds with bundle `b2`, then
`b2` is not `b1`, the cache still maps `N1` to `b1` and now maps `N2` to `b2`, and the
database-gauge cache is unchanged.  When `N2` was not cached beforehand, the call for
`N2` performs its own registration: it calls `Register` once for each of the five
collectors `all_total`, `creates_total`, `deletes_total`, `queries_total`,
`updates_total` of namespace `N2`, in this order, none of them a collector of `N1`, and
allocates the bundle of these five vectors.  When `N2` was cached beforehand, the call
returns the cached bundle and changes nothing, so it makes no registration call.
Symmetrically for `newDatabaseGauges` and its eight collectors, with the query-counter
cache unchanged. -/
theorem distinct_namespaces {σ : Type} (R : Registerer σ) (N1 N2 : String) (w : World σ)
    (hne : N1 ≠ N2) (hwf : w.WF) :
    (∀ b1 b2, (newQueryCounters R N1 w).1 = .ok b1 →
      (newQueryCounters R N2 (newQueryCounters R N1 w).2).1 = .ok b2 →
      b2 ≠ b1 ∧
      GoMap.get? (newQueryCounters R N2 (newQueryCounters R N1 w).2).2.collectors.query N1 =
        some b1 ∧
      GoMap.get? (newQueryCounters R N2 (newQueryCounters R N1 w).2).2.collectors.query N2 =
        some b2 ∧
      (newQueryCounters R N2 (newQueryCounters R N1 w).2).2.collectors.database =
        (newQueryCounters R N1 w).2.collectors.database ∧
      (∀ c ∈ queryCounters.collectors N2, c ∉ queryCounters.collectors N1) ∧
      (GoMap.get? w.collectors.query N2 = none →
        (newQueryCounters R N2 (newQueryCounters R N1 w).2).2.calls =
          (newQueryCounters R N1 w).2.calls ++
            [⟨N2, "all_total", "All queries requested", ["database", "driver", "status"]⟩,
             ⟨N2, "creates_total", "All create queries requested",
               ["database", "driver", "status"]⟩,
             ⟨N2, "deletes_total", "All delete queries requested",
               ["database", "driver", "status"]⟩,
             ⟨N2, "queries_total", "All select queries requested",
               ["database", "driver", "status"]⟩,
             ⟨N2, "updates_total", "All update queries requested",
               ["database", "driver", "status"]⟩] ∧
        (newQueryCounters R N2 (newQueryCounters R N1 w).2).2.qheap =
          (newQueryCounters R N1 w).2.qheap ++
            [{ all := some ⟨⟨N2, "all_total", "All queries requested",
                  ["database", "driver", "status"]⟩, []⟩
               creates := some ⟨⟨N2, "creates_total", "All create queries requested",
                  ["database", "driver", "status"]⟩, []⟩
               deletes := some ⟨⟨N2, "deletes_total", "All delete queries requested",
                  ["database", "driver", "status"]⟩, []⟩
               queries := some ⟨⟨N2, "queries_total", "All select queries requested",
                  ["database", "driver", "status"]⟩, []⟩
               updates := some ⟨⟨N2, "updates_total", "All update queries requested",
                  ["database", "driver", "status"]⟩, []⟩ }] ∧
        b2 = (newQueryCounters R N1 w).2.qheap.length) ∧
      (∀ gc, GoMap.get? w.collectors.query N2 = some gc →
        b2 = gc ∧
        (newQueryCounters R N2 (newQueryCounters R N1 w).2).2 =
          (newQueryCounters R N1 w).2)) ∧
    (∀ b1 b2, (newDatabaseGauges R N1 w).1 = .ok b1 →
      (newDatabaseGauges R N2 (newDatabaseGauges R N1 w).2).1 = .ok b2 →
      b2 ≠ b1 ∧
      GoMap.get?
          (newDatabaseGauges R N2 (newDatabaseGauges R N1 w).2).2.collectors.database N1 =
        some b1 ∧
      GoMap.get?
          (newDatabaseGauges R N2 (newDatabaseGauges R N1 w).2).2.collectors.database N2 =
        some b2 ∧
      (newDatabaseGauges R N2 (newDatabaseGauges R N1 w).2).2.collectors.query =
        (newDatabaseGauges R N1 w).2.collectors.query ∧
      (∀ c ∈ databaseGauges.collectors N2, c ∉ databaseGauges.collectors N1) ∧
      (GoMap.get? w.collectors.database N2 = none →
        (newDatabaseGauges R N2 (newDatabaseGauges R N1 w).2).2.calls =
          (newDatabaseGauges R N1 w).2.calls ++
            [⟨N2, "connections_idle", helpIdleConnections, ["database", "driver"]⟩,
             ⟨N2, "connections_in_use", helpInUseConnections, ["database", "driver"]⟩,
             ⟨N2, "connections_open", helpOpenConnections, ["database", "driver"]⟩,
             ⟨N2, "connections_max_open", helpMaxOpenConnections, ["database", "driver"]⟩,
             ⟨N2, "connections_wait_for", helpWaitedForConnections, ["database", "driver"]⟩,
             ⟨N2, "connections_blocked_seconds", helpBlockedSecondsConnections,
               ["database", "driver"]⟩,
             ⟨N2, "connections_closed_max_idle", helpClosedMaxIdleConnections,
               ["database", "driver"]⟩,
             ⟨N2, "connections_closed_max_lifetime", helpClosedMaxLifetimeConnections,
               ["database", "driver"]⟩] ∧
        (newDatabaseGauges R N2 (newDatabaseGauges R N1 w).2).2.dheap =
          (newDatabaseGauges R N1 w).2.dheap ++
            [{ idle := ⟨⟨N2, "connections_idle", helpIdleConnections,
                  ["database", "driver"]⟩, []⟩
               inUse := ⟨⟨N2, "connections_in_use", helpInUseConnections,
                  ["database", "driver"]⟩, []⟩
               open_ := ⟨⟨N2, "connections_open", helpOpenConnections,
                  ["database", "driver"]⟩, []⟩
               maxOpen := ⟨⟨N2, "connections_max_open", helpMaxOpenConnections,
                  ["database", "driver"]⟩, []⟩
               waitedFor := ⟨⟨N2, "connections_wait_for", helpWaitedForConnections,
                  ["database", "driver"]⟩, []⟩
               blockedSeconds := ⟨⟨N2, "connections_blocked_seconds",
                  helpBlockedSecondsConnections, ["database", "driver"]⟩, []⟩
               closedMaxIdle := ⟨⟨N2, "connections_closed_max_idle",
                  helpClosedMaxIdleConnections, ["database", "driver"]⟩, []⟩
               closedMaxLifetime := ⟨⟨N2, "connections_closed_max_lifetime",
                  helpClosedMaxLifetimeConnections, ["database", "driver"]⟩, []⟩ }] ∧
        b2 = (newDatabaseGauges R N1 w).2.dheap.length) ∧
      (∀ gc, GoMap.get? w.collectors.database N2 = some gc →
        b2 = gc ∧
        (newDatabaseGauges R N2 (newDatabaseGauges R N1 w).2).2 =
          (newDatabaseGauges R N1 w).2)) := by
  have hne' : N2 ≠ N1 := fun e => hne e.symm
  constructor
  · intro b1 b2 h1 h2
    obtain ⟨hget1, -, -⟩ := newQueryCounters_ok R N1 w b1 h1
    have hwf1 := newQueryCounters_WF R N1 w hwf
    obtain ⟨hget2, hmiss2, hhit2⟩ := newQueryCounters_ok R N2 _ b2 h2
    have hother := newQueryCounters_other R N2 N1 (newQueryCounters R N1 w).2 hne'
    have hsame := newQueryCounters_other R N1 N2 w hne
    refine ⟨?_, by rw [hother]; exact hget1, hget2,
      (newQueryCounters_database R N2 _).1, ?_, ?_, ?_⟩
    · cases hq2 : GoMap.get? (newQueryCounters R N1 w).2.collectors.query N2 with
      | some gc =>
        obtain ⟨hb, -⟩ := hhit2 gc hq2
        intro e
        rw [← hb, e] at hq2
        exact hne (GoMap.key_eq_of_nodup_snd hwf1.2.1 N1 N2 b1 hget1 hq2)
      | none =>
        obtain ⟨hb, -⟩ := hmiss2 hq2
        have hlt := hwf1.1 _ (GoMap.mem_of_get? _ _ _ hget1)
        intro e
        rw [e] at hb
        simp only at hlt
        omega
    · intro c hc2 hc1
      have e2 := queryCounters_collectors_namespace N2 c hc2
      have e1 := queryCounters_collectors_namespace N1 c hc1
      exact hne (e1.symm.trans e2)
    · intro hq
      obtain ⟨g0, g1, g2, -⟩ := hmiss2 (hsame.trans hq)
      exact ⟨g2, g1, g0⟩
    · intro gc hq
      exact hhit2 gc (hsame.trans hq)
  · intro b1 b2 h1 h2
    obtain ⟨hget1, -, -⟩ := newDatabaseGauges_ok R N1 w b1 h1
    have hwf1 := newDatabaseGauges_WF R N1 w hwf
    obtain ⟨hget2, hmiss2, hhit2⟩ := newDatabaseGauges_ok R N2 _ b2 h2
    have hother := newDatabaseGauges_other R N2 N1 (newDatabaseGauges R N1 w).2 hne'
    have hsame := newDatabaseGauges_other R N1 N2 w hne
    refine ⟨?_, by rw [hother]; exact hget1, hget2,
      (newDatabaseGauges_query R N2 _).1, ?_, ?_, ?_⟩
    · cases hq2 : GoMap.get? (newDatabaseGauges R N1 w).2.collectors.database N2 with
      | some gc =>
        obtain ⟨hb, -⟩ := hhit2 gc hq2
        intro e
        rw [← hb, e] at hq2
        exact hne (GoMap.key_eq_of_nodup_snd hwf1.2.2.2 N1 N2 b1 hget1 hq2)
      | none =>
        obtain ⟨hb, -⟩ := hmiss2 hq2
        have hlt := hwf1.2.2.1 _ (GoMap.mem_of_get? _ _ _ hget1)
        intro e
        rw [e] at hb
        simp only at hlt
        omega
    · intro c hc2 hc1
      have e2 := databaseGauges_collectors_namespace N2 c hc2
      have e1 := databaseGauges_collectors_namespace N1 c hc1
      exact hne (e1.symm.trans e2)
    · intro hq
      obtain ⟨g0, g1, g2, -⟩ := hmiss2 (hsame.trans hq)
      exact ⟨g2, g1, g0⟩
    · intro gc hq
      exact hhit2 gc (hsame.trans hq)

/-- Witness of C4: on an empty registry over the Prometheus backend, the namespaces
`orders` and `billing` get the bundles at the distinct addresses 0 and 1. -/
theorem distinct_namespaces_witness :
    "orders" ≠ "billing" ∧ (World.init ([] : List Collector)).WF ∧
    (newQueryCounters prometheus "orders" (World.init [])).1 = .ok 0 ∧
    (newQueryCounters prometheus "billing"
      (newQueryCounters prometheus "orders" (World.init [])).2).1 = .ok 1 ∧
    (1 : Nat) ≠ 0 :=
  ⟨by decide, World.WF_init [], rfl, rfl,
    ((distinct_namespaces prometheus "orders" "billing" (World.init []) (by decide)
      (World.WF_init [])).1 0 1 rfl rfl).1⟩

/-- C4, as stated, fails: in the registry reached by `newQueryCounters("billing")`, which
satisfies the invariant, the call `newQueryCounters("orders")` succeeds and registers
five collectors, and the call `newQueryCounters("billing")` made after it succeeds
without any call to `Register`: the log of `Register` calls and the backend are what
they were before it. -/
theorem cached_namespace_not_registered :
    "orders" ≠ "billing" ∧ cachedScenario.start.WF ∧
    cachedScenario.first.1 = .ok 1 ∧
    cachedScenario.second.1 = .ok 0 ∧
    cachedScenario.first.2.calls.length = 10 ∧
    cachedScenario.second.2.calls = cachedScenario.first.2.calls ∧
    cachedScenario.second.2.backend = cachedScenario.first.2.backend :=
  ⟨by decide, newQueryCounters_WF prometheus "billing" _ (World.WF_init []), rfl, rfl, rfl,
    rfl, rfl⟩



/-- C3, at a failing input: over the Prometheus backend in which `app_deletes_total` is
registered from outside, `newQueryCounters("app")` fails at the third collector, caches
nothing and leaves `app_all_total` and `app_creates_total` registered; once the outside
metric is gone from the backend, the next call for `app` calls `Register` for its first
collector only, is rejected there, and `app` stays uncached. -/
theorem newQueryCounters_retry_rejected :
    retryScenario.first.1 =
      .error "could not register collectors: duplicate metrics collector registration attempted" ∧
    retryScenario.first.2.collectors = { query := [], database := [] } ∧
    retryScenario.first.2.backend.map Collector.fqName =
      ["app_deletes_total", "app_all_total", "app_creates_total"] ∧
    retryScenario.cleaned.backend.map Collector.fqName =
      ["app_all_total", "app_creates_total"] ∧
    retryScenario.second.1 =
      .error "could not register collectors: duplicate metrics collector registration attempted" ∧
    retryScenario.second.2.calls = retryScenario.cleaned.calls ++
      [⟨"app", "all_total", "All queries requested", ["database", "driver", "status"]⟩] ∧
    GoMap.get? retryScenario.second.2.collectors.query "app" = none := by
  refine ⟨rfl, rfl, rfl, rfl, rfl, rfl, rfl⟩

end Gormetrics
